import Mathlib

/-!
# QgsProperty: a shallow embedding of `src/core/qgsproperty.cpp`

The property engine of `qgsproperty.cpp` is embedded as pure functions over the
backing record `QgsPropertyPrivate`.  Methods that write to the backing record
(also the `const` ones that populate the cache) return the new record next to
their C++ result; a `bool* ok` out-parameter becomes a `Bool` component of the
result.

The collaborators the engine only consumes (the variant value type, the
compiled expression, the polymorphic transformer and its factory, the
evaluation context) are not part of `qgsproperty.cpp`; they enter as the
operations of a `Collab` record, so every statement holds for every
implementation of them.

The sharing of one backing record between copies of a Property is embedded
separately, in `Heap` and the namespace `Shared`, where the methods run on a
store of reference-counted records and `d.detach()` is explicit.
-/

namespace Qgs

/-! ## Strings and the document tree -/

/-- Value of a decimal digit character, `none` for any other character. -/
def digitValue (c : Char) : Option Nat :=
  if '0' ≤ c ∧ c ≤ '9' then some (c.toNat - '0'.toNat) else none

/-- Reads a run of decimal digits onto the accumulator; fails on any other
character. -/
def parseDigits : List Char → Nat → Option Nat
  | [], acc => some acc
  | c :: cs, acc =>
    match digitValue c with
    | some v => parseDigits cs (10 * acc + v)
    | none => none

/-- An optionally signed, non-empty run of decimal digits. -/
def parseSigned : List Char → Option Int
  | [] => none
  | '-' :: c :: cs => (parseDigits (c :: cs) 0).map (fun n => - (n : Int))
  | '+' :: c :: cs => (parseDigits (c :: cs) 0).map (fun n => (n : Int))
  | c :: cs => (parseDigits (c :: cs) 0).map (fun n => (n : Int))

/-- The `QChar::isSpace` test: the space, the control characters U+0009 to
U+000D, U+0085, and the code points of the Unicode separator categories. -/
def QChar.isSpace (c : Char) : Bool :=
  let u := c.toNat
  decide (u = 0x20) || decide (0x09 ≤ u ∧ u ≤ 0x0d) || decide (u = 0x85) || decide (u = 0xa0)
    || decide (u = 0x1680) || decide (0x2000 ≤ u ∧ u ≤ 0x200a) || decide (u = 0x2028)
    || decide (u = 0x2029) || decide (u = 0x202f) || decide (u = 0x205f) || decide (u = 0x3000)

/-- Drops white space at both ends of a character list. -/
def trimSpaces (cs : List Char) : List Char :=
  ((cs.dropWhile QChar.isSpace).reverse.dropWhile QChar.isSpace).reverse

/-- The `QString::toInt()` conversion (base 10, no `ok` pointer): the parsed
value when the text, white space at both ends ignored, is an optionally signed
run of decimal digits whose value fits a 32 bit `int`, and `0` when the
conversion fails. -/
def QString.toInt (s : String) : Int :=
  match parseSigned (trimSpaces s.toList) with
  | some n => if -2147483648 ≤ n ∧ n ≤ 2147483647 then n else 0
  | none => 0

/-- The `QString::number( int )` rendering used by
`QDomElement::setAttribute( name, int )`. -/
def QString.number (n : Int) : String :=
  match n with
  | Int.ofNat m => Nat.repr m
  | Int.negSucc m => "-" ++ Nat.repr (m + 1)

mutual
/-- An element of the document tree: tag name, attributes, child elements. -/
inductive QDomElement where
  | mk (tagName : String) (attributes : List (String × String)) (children : QDomNodeList)
/-- A list of elements. -/
inductive QDomNodeList where
  | nil
  | cons (head : QDomElement) (tail : QDomNodeList)
end

/-- The tag name of an element. -/
def QDomElement.tagName : QDomElement → String
  | .mk t _ _ => t

/-- The attribute list of an element. -/
def QDomElement.attributes : QDomElement → List (String × String)
  | .mk _ a _ => a

/-- The child elements of an element. -/
def QDomElement.children : QDomElement → QDomNodeList
  | .mk _ _ c => c

/-- Lookup in an attribute list, with a default for a missing attribute. -/
def lookupAttribute : List (String × String) → String → String → String
  | [], _, defValue => defValue
  | (k, v) :: rest, name, defValue =>
    if k = name then v else lookupAttribute rest name defValue

/-- Replaces the value of attribute `name`, or adds the attribute at the end. -/
def storeAttribute : List (String × String) → String → String → List (String × String)
  | [], name, value => [(name, value)]
  | (k, v) :: rest, name, value =>
    if k = name then (k, value) :: rest else (k, v) :: storeAttribute rest name value

/-- The `QDomElement::attribute( name, defValue )` lookup. -/
def QDomElement.attributeOr (e : QDomElement) (name defValue : String) : String :=
  lookupAttribute e.attributes name defValue

/-- The `QDomElement::setAttribute( name, value )` update. -/
def QDomElement.setAttribute (e : QDomElement) (name value : String) : QDomElement :=
  .mk e.tagName (storeAttribute e.attributes name value) e.children

/-- Appends an element at the end of a node list. -/
def QDomNodeList.append : QDomNodeList → QDomElement → QDomNodeList
  | .nil, c => .cons c .nil
  | .cons h t, c => .cons h (QDomNodeList.append t c)

/-- The `QDomNode::appendChild( child )` update. -/
def QDomElement.appendChild (e : QDomElement) (child : QDomElement) : QDomElement :=
  .mk e.tagName e.attributes (e.children.append child)

mutual
/-- The `QDomElement::elementsByTagName( tag )` query: all descendants named
`tag`, in the order of a preorder traversal of the subtree below the element. -/
def QDomElement.elementsByTagName (tag : String) : QDomElement → List QDomElement
  | .mk _ _ cs => QDomNodeList.preorder tag cs
/-- Preorder traversal of a node list, keeping the elements named `tag`. -/
def QDomNodeList.preorder (tag : String) : QDomNodeList → List QDomElement
  | .nil => []
  | .cons e rest =>
    (if e.tagName = tag then [e] else [])
      ++ QDomElement.elementsByTagName tag e ++ QDomNodeList.preorder tag rest
end

/-! ## Collaborators -/

/-- The schema of a context, as `prepare` consumes it: `QgsFields::lookupField`. -/
structure QgsFields where
  lookupField : String → Int

/-- The current record of a context, as `propertyValue` consumes it:
`QgsFeature::isValid`, `QgsFeature::attribute( int )` (here `attributeAt`)
and `QgsFeature::fieldNameIndex`. -/
structure QgsFeature (V : Type) where
  isValid : Bool
  attributeAt : Int → V
  fieldNameIndex : String → Int

/-- The evaluation context: `QgsExpressionContext::fields()` and
`QgsExpressionContext::feature()`. -/
structure QgsExpressionContext (V : Type) where
  fields : QgsFields
  feature : QgsFeature V

/-- The operations `qgsproperty.cpp` calls on classes it does not define.

* `QVariant`: `null` is `QVariant()`, `variantEq` is `operator==`, `ofString`
  is `QVariant( QString )`, `convert v n` is
  `v.convert( QVariant::nameToType( n ) )` followed by reading `v`.
* `QgsExpression`: `mkExpression` is `QgsExpression( text )`; `prepare` and
  `evaluate` are non-const in C++, so they return the expression object after
  the call; `emptyExpression` is the default-constructed object.
* `QgsPropertyTransformer`: the virtual methods `transform`, `toExpression`,
  `transformerType`, `writeXml` (returns the element after the call) and
  `readXml` (returns the transformer after the call), and the static factories
  `create( type )` and `fromExpression( text, baseExpression, fieldName )`
  (`none` for a null pointer; otherwise the transformer with the two
  out-parameters `baseExpression` and `fieldName`, in this order). -/
structure Collab where
  QVariant : Type
  null : QVariant
  isValid : QVariant → Bool
  variantEq : QVariant → QVariant → Bool
  typeName : QVariant → String
  toString : QVariant → String
  ofString : String → QVariant
  convert : QVariant → String → QVariant
  QgsExpression : Type
  emptyExpression : QgsExpression
  mkExpression : String → QgsExpression
  prepare : QgsExpression → QgsExpressionContext QVariant → Bool × QgsExpression
  evaluate : QgsExpression → QgsExpressionContext QVariant → QVariant × QgsExpression
  referencedColumns : QgsExpression → Finset String
  QgsPropertyTransformer : Type
  transform : QgsPropertyTransformer → QgsExpressionContext QVariant → QVariant → QVariant
  toExpression : QgsPropertyTransformer → String → String
  transformerType : QgsPropertyTransformer → Int
  writeXml : QgsPropertyTransformer → QDomElement → Bool × QDomElement
  readXml : QgsPropertyTransformer → QDomElement → Bool × QgsPropertyTransformer
  create : Int → Option QgsPropertyTransformer
  fromExpression : String → Option (QgsPropertyTransformer × String × String)

/-- The static helpers of `QgsExpression` that `asExpression` calls:
`QgsExpression::quotedValue` renders a value as a literal of the expression
language, `QgsExpression::quotedColumnRef` a field name as a column
reference. -/
structure Quoting (K : Collab) where
  quotedValue : K.QVariant → String
  quotedColumnRef : String → String

/-- The conversions `valueAsInt` calls: `ofInt` is `QVariant( int )`, `toInt`
and `toDouble` are `QVariant::toInt( &convertOk )` and
`QVariant::toDouble( &convertOk )` with the flag as second component, `qRound`
is Qt's rounding of a `double` to an `int`.  The type of the `double` values is
left open. -/
structure NumericOps (K : Collab) where
  Double : Type
  ofInt : Int → K.QVariant
  toInt : K.QVariant → Int × Bool
  toDouble : K.QVariant → Double × Bool
  qRound : Double → Int

/-- The conversions the other typed evaluators call.  `QColor` is the colour
type, `ofColor` is `QVariant( QColor )`, `isColor v` is
`v.type() == QVariant::Color`, `toColor` is `v.value<QColor>()`, `decodeColor`
is `QgsSymbolLayerUtils::decodeColor`, `colorIsValid` is `QColor::isValid`;
`ofDouble` and `ofBool` are `QVariant( double )` and `QVariant( bool )`,
`toBool` is `QVariant::toBool`. -/
structure TypedOps (K : Collab) (N : NumericOps K) where
  QColor : Type
  ofColor : QColor → K.QVariant
  isColor : K.QVariant → Bool
  toColor : K.QVariant → QColor
  decodeColor : String → QColor
  colorIsValid : QColor → Bool
  ofDouble : N.Double → K.QVariant
  ofBool : Bool → K.QVariant
  toBool : K.QVariant → Bool

/-! ## The backing record -/

/-- Modelled from the spec: the enumerators of `QgsProperty::Type`, declared in
`qgsproperty.h`, in the order the spec lists the type tags (Invalid is the
0-equivalent tag). -/
abbrev InvalidProperty : Int := 0

/-- Modelled from the spec: the tag of the Static variant (see
`InvalidProperty`). -/
abbrev StaticProperty : Int := 1

/-- Modelled from the spec: the tag of the FieldBound variant (see
`InvalidProperty`). -/
abbrev FieldBasedProperty : Int := 2

/-- Modelled from the spec: the tag of the ExpressionBound variant (see
`InvalidProperty`). -/
abbrev ExpressionBasedProperty : Int := 3

/-- Modelled from the spec: the backing record `QgsPropertyPrivate` of
`qgsproperty.h`, with the members `qgsproperty.cpp` reads and writes through
`d->`.  The type tag is stored as an `int` (the source casts it to `Type` in
`propertyType()` and from `Type` in `readXml`); all variant payloads are present
at once. -/
structure QgsPropertyPrivate (K : Collab) where
  type : Int
  active : Bool
  transformer : Option K.QgsPropertyTransformer
  staticValue : K.QVariant
  fieldName : String
  cachedFieldIdx : Int
  expressionString : String
  expressionPrepared : Bool
  expression : K.QgsExpression
  expressionReferencedCols : Finset String

namespace QgsProperty

/-- Modelled from the spec: the default constructor of `QgsPropertyPrivate`
(`qgsproperty.h`), which `QgsProperty::QgsProperty()` calls: an Invalid,
inactive Property with no transformer and an empty cache. -/
def defaultConstructed (K : Collab) : QgsPropertyPrivate K where
  type := InvalidProperty
  active := false
  transformer := none
  staticValue := K.null
  fieldName := ""
  cachedFieldIdx := -1
  expressionString := ""
  expressionPrepared := false
  expression := K.emptyExpression
  expressionReferencedCols := ∅

/-- The comparison `QgsProperty::operator==`. -/
def operatorEq (K : Collab) (d other : QgsPropertyPrivate K) : Bool :=
  decide (d.active = other.active)
    && decide (d.type = other.type)
    && (decide (d.type ≠ StaticProperty) || K.variantEq d.staticValue other.staticValue)
    && (decide (d.type ≠ FieldBasedProperty) || decide (d.fieldName = other.fieldName))
    && (decide (d.type ≠ ExpressionBasedProperty)
          || decide (d.expressionString = other.expressionString))
    && (match d.transformer, other.transformer with
        | none, none => true
        | some t, some u => decide (K.toExpression t "" = K.toExpression u "")
        | _, _ => false)

/-- The accessor `QgsProperty::propertyType`. -/
def propertyType (K : Collab) (d : QgsPropertyPrivate K) : Int :=
  d.type

/-- The accessor `QgsProperty::isActive`. -/
def isActive (K : Collab) (d : QgsPropertyPrivate K) : Bool :=
  decide (d.type ≠ InvalidProperty) && d.active

/-- The setter `QgsProperty::setActive`. -/
def setActive (K : Collab) (d : QgsPropertyPrivate K) (active : Bool) : QgsPropertyPrivate K :=
  { d with active := active }

/-- The setter `QgsProperty::setStaticValue`. -/
def setStaticValue (K : Collab) (d : QgsPropertyPrivate K) (value : K.QVariant) :
    QgsPropertyPrivate K :=
  { d with type := StaticProperty, staticValue := value }

/-- The accessor `QgsProperty::staticValue`. -/
def staticValue (K : Collab) (d : QgsPropertyPrivate K) : K.QVariant :=
  if d.type ≠ StaticProperty then K.null else d.staticValue

/-- The setter `QgsProperty::setField`. -/
def setField (K : Collab) (d : QgsPropertyPrivate K) (field : String) : QgsPropertyPrivate K :=
  { d with type := FieldBasedProperty, fieldName := field, cachedFieldIdx := -1 }

/-- The accessor `QgsProperty::field`. -/
def field (K : Collab) (d : QgsPropertyPrivate K) : String :=
  if d.type ≠ FieldBasedProperty then "" else d.fieldName

/-- The setter `QgsProperty::setExpressionString`. -/
def setExpressionString (K : Collab) (d : QgsPropertyPrivate K) (expression : String) :
    QgsPropertyPrivate K :=
  { d with
    type := ExpressionBasedProperty
    expressionString := expression
    expression := K.mkExpression expression
    expressionPrepared := false }

/-- The accessor `QgsProperty::expressionString`. -/
def expressionString (K : Collab) (d : QgsPropertyPrivate K) : String :=
  if d.type ≠ ExpressionBasedProperty then "" else d.expressionString

/-- The factory `QgsProperty::fromExpression`. -/
def fromExpression (K : Collab) (expression : String) (isActive : Bool) : QgsPropertyPrivate K :=
  setActive K (setExpressionString K (defaultConstructed K) expression) isActive

/-- The factory `QgsProperty::fromField`. -/
def fromField (K : Collab) (fieldName : String) (isActive : Bool) : QgsPropertyPrivate K :=
  setActive K (setField K (defaultConstructed K) fieldName) isActive

/-- The factory `QgsProperty::fromValue`. -/
def fromValue (K : Collab) (value : K.QVariant) (isActive : Bool) : QgsPropertyPrivate K :=
  setActive K (setStaticValue K (defaultConstructed K) value) isActive

/-- The setter `QgsProperty::setTransformer`. -/
def setTransformer (K : Collab) (d : QgsPropertyPrivate K)
    (transformer : Option K.QgsPropertyTransformer) : QgsPropertyPrivate K :=
  { d with transformer := transformer }

/-- The method `QgsProperty::prepare`: its result and the backing record after
the call. -/
def prepare (K : Collab) (d : QgsPropertyPrivate K) (context : QgsExpressionContext K.QVariant) :
    Bool × QgsPropertyPrivate K :=
  if !d.active then (true, d)
  else if d.type = StaticProperty then (true, d)
  else if d.type = FieldBasedProperty then
    (true, { d with cachedFieldIdx := context.fields.lookupField d.fieldName })
  else if d.type = ExpressionBasedProperty then
    match K.prepare d.expression context with
    | (false, e) =>
      (false, { d with expression := e, expressionReferencedCols := ∅, expressionPrepared := false })
    | (true, e) =>
      (true, { d with
                expression := e
                expressionPrepared := true
                expressionReferencedCols := K.referencedColumns e })
  else if d.type = InvalidProperty then (true, d)
  else (false, d)

/-- The method `QgsProperty::propertyValue`: the returned variant, the `ok`
flag, and the backing record after the call. -/
def propertyValue (K : Collab) (d : QgsPropertyPrivate K)
    (context : QgsExpressionContext K.QVariant) (defaultValue : K.QVariant) :
    K.QVariant × Bool × QgsPropertyPrivate K :=
  if !d.active then (defaultValue, false, d)
  else if d.type = StaticProperty then (d.staticValue, true, d)
  else if d.type = FieldBasedProperty then
    let f := context.feature
    if !f.isValid then (defaultValue, false, d)
    else if d.cachedFieldIdx ≥ 0 then (f.attributeAt d.cachedFieldIdx, true, d)
    else
      let fieldIdx := f.fieldNameIndex d.fieldName
      if fieldIdx < 0 then (defaultValue, false, d)
      else (f.attributeAt fieldIdx, true, d)
  else if d.type = ExpressionBasedProperty then
    match (if d.expressionPrepared then (true, d) else prepare K d context) with
    | (false, d1) => (defaultValue, false, d1)
    | (true, d1) =>
      match K.evaluate d1.expression context with
      | (result, e) =>
        if K.isValid result then (result, true, { d1 with expression := e })
        else (defaultValue, false, { d1 with expression := e })
  else if d.type = InvalidProperty then (defaultValue, false, d)
  else (K.null, false, d)

/-- The method `QgsProperty::value`: the returned variant, the `ok` flag, and
the backing record after the call. -/
def value (K : Collab) (d : QgsPropertyPrivate K)
    (context : QgsExpressionContext K.QVariant) (defaultValue : K.QVariant) :
    K.QVariant × Bool × QgsPropertyPrivate K :=
  match propertyValue K d context defaultValue with
  | (val, valOk, d1) =>
    match d1.transformer with
    | none => if !valOk then (defaultValue, false, d1) else (val, true, d1)
    | some t => (K.transform t context (if !valOk then K.null else val), true, d1)

/-- The element `writeXml` hands to the transformer: a fresh `transformer`
element carrying the type tag in its attribute `t`. -/
def transformerElement (K : Collab) (t : K.QgsPropertyTransformer) : QDomElement :=
  (QDomElement.mk "transformer" [] QDomNodeList.nil).setAttribute "t"
    (QString.number (K.transformerType t))

/-- The method `QgsProperty::writeXml`: its result and the element after the
call.  The document argument only serves to create the transformer element. -/
def writeXml (K : Collab) (d : QgsPropertyPrivate K) (propertyElem : QDomElement) :
    Bool × QDomElement :=
  let e1 := propertyElem.setAttribute "active" (if d.active then "1" else "0")
  let e2 := e1.setAttribute "type" (QString.number d.type)
  let e3 :=
    if d.type = StaticProperty then
      (e2.setAttribute "valType" (K.typeName d.staticValue)).setAttribute "val"
        (K.toString d.staticValue)
    else if d.type = FieldBasedProperty then e2.setAttribute "field" d.fieldName
    else if d.type = ExpressionBasedProperty then e2.setAttribute "expression" d.expressionString
    else e2
  match d.transformer with
  | none => (true, e3)
  | some t =>
    match K.writeXml t (transformerElement K t) with
    | (true, written) => (true, e3.appendChild written)
    | (false, _) => (true, e3)

/-- The method `QgsProperty::readXml`: its result and the backing record after
the call. -/
def readXml (K : Collab) (d : QgsPropertyPrivate K) (propertyElem : QDomElement) :
    Bool × QgsPropertyPrivate K :=
  let d1 : QgsPropertyPrivate K :=
    { d with
      active := decide (QString.toInt (propertyElem.attributeOr "active" "1") ≠ 0)
      type := QString.toInt (propertyElem.attributeOr "type" "0") }
  let d2 : QgsPropertyPrivate K :=
    if d1.type = StaticProperty then
      { d1 with
        staticValue :=
          K.convert (K.ofString (propertyElem.attributeOr "val" ""))
            (propertyElem.attributeOr "valType" "QString") }
    else if d1.type = FieldBasedProperty then
      let fieldName := propertyElem.attributeOr "field" ""
      if fieldName = "" then { d1 with fieldName := fieldName, active := false }
      else { d1 with fieldName := fieldName }
    else if d1.type = ExpressionBasedProperty then
      let expressionString := propertyElem.attributeOr "expression" ""
      { d1 with
        expressionString := expressionString
        active := if expressionString = "" then false else d1.active
        expression := K.mkExpression expressionString
        expressionPrepared := false
        expressionReferencedCols := ∅ }
    else d1
  let d3 : QgsPropertyPrivate K := { d2 with transformer := none }
  match propertyElem.elementsByTagName "transformer" with
  | [] => (true, d3)
  | transformerElem :: _ =>
    match K.create (QString.toInt (transformerElem.attributeOr "t" "0")) with
    | none => (true, d3)
    | some transformer =>
      match K.readXml transformer transformerElem with
      | (true, restored) => (true, { d3 with transformer := some restored })
      | (false, _) => (true, d3)

/-- The method `QgsProperty::convertToTransformer`: its result and the backing
record after the call. -/
def convertToTransformer (K : Collab) (d : QgsPropertyPrivate K) : Bool × QgsPropertyPrivate K :=
  if d.type ≠ ExpressionBasedProperty then (false, d)
  else if d.transformer.isSome then (false, d)
  else
    match K.fromExpression d.expressionString with
    | none => (false, d)
    | some (transformer, baseExpression, fieldName) =>
      let d1 : QgsPropertyPrivate K := { d with transformer := some transformer }
      if fieldName ≠ "" then (true, setField K d1 fieldName)
      else (true, setExpressionString K d1 baseExpression)

/-- The method `QgsProperty::asExpression`. -/
def asExpression (K : Collab) (Q : Quoting K) (d : QgsPropertyPrivate K) : String :=
  let exp :=
    if d.type = StaticProperty then Q.quotedValue d.staticValue
    else if d.type = FieldBasedProperty then Q.quotedColumnRef d.fieldName
    else if d.type = ExpressionBasedProperty then d.expressionString
    else ""
  match d.transformer with
  | some t => K.toExpression t exp
  | none => exp

/-- The method `QgsProperty::referencedFields`: the returned set and the backing
record after the call. -/
def referencedFields (K : Collab) (d : QgsPropertyPrivate K)
    (context : QgsExpressionContext K.QVariant) : Finset String × QgsPropertyPrivate K :=
  if !d.active then (∅, d)
  else if d.type = StaticProperty ∨ d.type = InvalidProperty then (∅, d)
  else if d.type = FieldBasedProperty then
    (if d.fieldName ≠ "" then {d.fieldName} else ∅, d)
  else if d.type = ExpressionBasedProperty then
    match (if d.expressionPrepared then (true, d) else prepare K d context) with
    | (false, d1) => (∅, d1)
    | (true, d1) => (d1.expressionReferencedCols, d1)
  else (∅, d)

/-- The method `QgsProperty::valueAsInt`: the returned `int`, the `ok` flag, and
the backing record after the call. -/
def valueAsInt (K : Collab) (N : NumericOps K) (d : QgsPropertyPrivate K)
    (context : QgsExpressionContext K.QVariant) (defaultValue : Int) :
    Int × Bool × QgsPropertyPrivate K :=
  match value K d context (N.ofInt defaultValue) with
  | (val, valOk, d1) =>
    if !valOk || !K.isValid val then (defaultValue, false, d1)
    else
      match N.toInt val with
      | (integer, true) => (integer, true, d1)
      | (_, false) =>
        match N.toDouble val with
        | (dbl, true) => (N.qRound dbl, true, d1)
        | (_, false) => (defaultValue, false, d1)

/-- The method `QgsProperty::valueAsString`: the returned text, the `ok` flag,
and the backing record after the call. -/
def valueAsString (K : Collab) (d : QgsPropertyPrivate K)
    (context : QgsExpressionContext K.QVariant) (defaultString : String) :
    String × Bool × QgsPropertyPrivate K :=
  match value K d context (K.ofString defaultString) with
  | (val, valOk, d1) =>
    if !valOk || !K.isValid val then (defaultString, false, d1)
    else (K.toString val, true, d1)

/-- The method `QgsProperty::valueAsColor`: the returned colour, the `ok` flag,
and the backing record after the call. -/
def valueAsColor (K : Collab) (N : NumericOps K) (T : TypedOps K N) (d : QgsPropertyPrivate K)
    (context : QgsExpressionContext K.QVariant) (defaultColor : T.QColor) :
    T.QColor × Bool × QgsPropertyPrivate K :=
  match value K d context (T.ofColor defaultColor) with
  | (val, valOk, d1) =>
    if !valOk || !K.isValid val then (defaultColor, false, d1)
    else
      let color := if T.isColor val then T.toColor val else T.decodeColor (K.toString val)
      if !T.colorIsValid color then (defaultColor, false, d1)
      else (color, true, d1)

/-- The method `QgsProperty::valueAsDouble`: the returned `double`, the `ok`
flag, and the backing record after the call. -/
def valueAsDouble (K : Collab) (N : NumericOps K) (T : TypedOps K N) (d : QgsPropertyPrivate K)
    (context : QgsExpressionContext K.QVariant) (defaultValue : N.Double) :
    N.Double × Bool × QgsPropertyPrivate K :=
  match value K d context (T.ofDouble defaultValue) with
  | (val, valOk, d1) =>
    if !valOk || !K.isValid val then (defaultValue, false, d1)
    else
      match N.toDouble val with
      | (_, false) => (defaultValue, false, d1)
      | (dbl, true) => (dbl, true, d1)

/-- The method `QgsProperty::valueAsBool`: the returned `bool`, the `ok` flag,
and the backing record after the call. -/
def valueAsBool (K : Collab) (N : NumericOps K) (T : TypedOps K N) (d : QgsPropertyPrivate K)
    (context : QgsExpressionContext K.QVariant) (defaultValue : Bool) :
    Bool × Bool × QgsPropertyPrivate K :=
  match value K d context (T.ofBool defaultValue) with
  | (val, valOk, d1) =>
    if !valOk || !K.isValid val then (defaultValue, false, d1)
    else (T.toBool val, true, d1)

end QgsProperty

/-! ## Property definitions -/

/-- Modelled from the spec: the enumeration
`QgsPropertyDefinition::StandardPropertyTemplate` (declared in `qgsproperty.h`);
its enumerators are the case labels of the template constructor's switch. -/
inductive StandardPropertyTemplate where
  | Boolean
  | Integer
  | IntegerPositive
  | IntegerPositiveGreaterZero
  | Double
  | DoublePositive
  | Double0To1
  | Rotation
  | String
  | Transparency
  | RenderUnits
  | ColorWithAlpha
  | ColorNoAlpha
  | PenJoinStyle
  | BlendMode
  | Point
  | Size
  | Size2D
  | LineStyle
  | StrokeWidth
  | FillStyle
  | CapStyle
  | HorizontalAnchor
  | VerticalAnchor
  | SvgPath
  | Offset
  | Custom
  deriving DecidableEq

/-- Modelled from the spec: the enumeration `QgsPropertyDefinition::DataType`
(declared in `qgsproperty.h`) of the accepted value kinds String, Numeric and
Boolean, under the names `qgsproperty.cpp` uses. -/
inductive DataType where
  | DataTypeString
  | DataTypeNumeric
  | DataTypeBoolean
  deriving DecidableEq

/-- Modelled from the spec: the members of `QgsPropertyDefinition` (declared in
`qgsproperty.h`) that the constructors of `qgsproperty.cpp` initialise. -/
structure QgsPropertyDefinition where
  mName : String
  mDescription : String
  mStandardType : StandardPropertyTemplate
  mTypes : DataType
  mHelpText : String
  deriving DecidableEq

namespace QgsPropertyDefinition

/-- The helper `QgsPropertyDefinition::trString` (texts are kept
untranslated: `QObject::tr` is the identity). -/
def trString : String := "string "

/-- The accepted kind the template constructor assigns to `mTypes`. -/
def templateTypes : StandardPropertyTemplate → DataType
  | .Boolean => .DataTypeBoolean
  | .Integer => .DataTypeNumeric
  | .IntegerPositive => .DataTypeNumeric
  | .IntegerPositiveGreaterZero => .DataTypeNumeric
  | .Double => .DataTypeNumeric
  | .DoublePositive => .DataTypeNumeric
  | .Double0To1 => .DataTypeNumeric
  | .Rotation => .DataTypeNumeric
  | .String => .DataTypeString
  | .Transparency => .DataTypeNumeric
  | .RenderUnits => .DataTypeString
  | .ColorWithAlpha => .DataTypeString
  | .ColorNoAlpha => .DataTypeString
  | .PenJoinStyle => .DataTypeString
  | .BlendMode => .DataTypeString
  | .Point => .DataTypeString
  | .Size => .DataTypeNumeric
  | .Size2D => .DataTypeString
  | .LineStyle => .DataTypeString
  | .StrokeWidth => .DataTypeNumeric
  | .FillStyle => .DataTypeString
  | .CapStyle => .DataTypeString
  | .HorizontalAnchor => .DataTypeString
  | .VerticalAnchor => .DataTypeString
  | .SvgPath => .DataTypeString
  | .Offset => .DataTypeString
  | .Custom => .DataTypeString

/-- The text the template constructor assigns to `mHelpText`; the `Custom` case
assigns none, so the member keeps its empty initial value. -/
def templateHelpText : StandardPropertyTemplate → String
  | .Boolean => "bool [<b>1</b>=True|<b>0</b>=False]"
  | .Integer => "int [&lt;= 0 =&gt;]"
  | .IntegerPositive => "int [&gt;= 0]"
  | .IntegerPositiveGreaterZero => "int [&gt;= 1]"
  | .Double => "double [&lt;= 0.0 =&gt;]"
  | .DoublePositive => "double [&gt;= 0.0]"
  | .Double0To1 => "double [0.0-1.0]"
  | .Rotation => "double [0.0-360.0]"
  | .String => "string of variable length"
  | .Transparency => "int [0-100]"
  | .RenderUnits => trString ++ "[<b>MM</b>|<b>MapUnit</b>|<b>Pixel</b>|<b>Point</b>]"
  | .ColorWithAlpha =>
    "string [<b>r,g,b,a</b>] as int 0-255 or #<b>RRGGBBAA</b> as hex or <b>color</b> as color's name"
  | .ColorNoAlpha =>
    "string [<b>r,g,b</b>] as int 0-255 or #<b>RRGGBB</b> as hex or <b>color</b> as color's name"
  | .PenJoinStyle => trString ++ "[<b>bevel</b>|<b>miter</b>|<b>round</b>]"
  | .BlendMode =>
    trString ++ "[<b>Normal</b>|<b>Lighten</b>|<b>Screen</b>|<b>Dodge</b>|<br>"
      ++ "<b>Addition</b>|<b>Darken</b>|<b>Multiply</b>|<b>Burn</b>|<b>Overlay</b>|<br>"
      ++ "<b>SoftLight</b>|<b>HardLight</b>|<b>Difference</b>|<b>Subtract</b>]"
  | .Point => "double coord [<b>X,Y</b>]"
  | .Size => "double [&gt;= 0.0]"
  | .Size2D => "double size [<b>width,height</b>]"
  | .LineStyle =>
    trString
      ++ "[<b>no</b>|<b>solid</b>|<b>dash</b>|<b>dot</b>|<b>dash dot</b>|<b>dash dot dot</b>]"
  | .StrokeWidth => "double [&gt;= 0.0]"
  | .FillStyle =>
    trString
      ++ "[<b>solid</b>|<b>horizontal</b>|<b>vertical</b>|<b>cross</b>|<b>b_diagonal</b>|<b>f_diagonal"
      ++ "</b>|<b>diagonal_x</b>|<b>dense1</b>|<b>dense2</b>|<b>dense3</b>|<b>dense4</b>|<b>dense5"
      ++ "</b>|<b>dense6</b>|<b>dense7</b>|<b>no]"
  | .CapStyle => trString ++ "[<b>square</b>|<b>flat</b>|<b>round</b>]"
  | .HorizontalAnchor => trString ++ "[<b>left</b>|<b>center</b>|<b>right</b>]"
  | .VerticalAnchor => trString ++ "[<b>top</b>|<b>center</b>|<b>bottom</b>]"
  | .SvgPath =>
    trString ++ "[<b>filepath</b>] as<br>"
      ++ "<b>''</b>=empty|absolute|search-paths-relative|<br>"
      ++ "project-relative|URL"
  | .Offset => "double offset [<b>x,y</b>]"
  | .Custom => ""

/-- The constructor `QgsPropertyDefinition( name, description, type )` from a
standard template. -/
def fromTemplate (name description : String) (type : StandardPropertyTemplate) :
    QgsPropertyDefinition where
  mName := name
  mDescription := description
  mStandardType := type
  mTypes := templateTypes type
  mHelpText := templateHelpText type

/-- The method `QgsPropertyDefinition::supportsAssistant`. -/
def supportsAssistant (p : QgsPropertyDefinition) : Bool :=
  decide (p.mTypes = DataType.DataTypeNumeric)
    || decide (p.mStandardType = StandardPropertyTemplate.Size)
    || decide (p.mStandardType = StandardPropertyTemplate.StrokeWidth)
    || decide (p.mStandardType = StandardPropertyTemplate.ColorNoAlpha)
    || decide (p.mStandardType = StandardPropertyTemplate.ColorWithAlpha)
    || decide (p.mStandardType = StandardPropertyTemplate.Rotation)

end QgsPropertyDefinition

/-- Two backing records agree on everything `operator==` reads: the active
flag, the type tag, the transformer and the three payloads.  The cached state
(field index, prepared flag, expression object, referenced columns) is not
part of it. -/
def SameSource (K : Collab) (a b : QgsPropertyPrivate K) : Prop :=
  a.active = b.active ∧ a.type = b.type ∧ a.transformer = b.transformer
    ∧ a.staticValue = b.staticValue ∧ a.fieldName = b.fieldName
    ∧ a.expressionString = b.expressionString

/-- The persistence contract of a transformer `t`, as the round trip of a
Property needs it: `t` writes itself successfully and keeps the tag name of its
element, the factory knows the type tag the element then carries, and the
created transformer reads the element back into a transformer that renders the
same expression fragment as `t`. -/
def TransformerRoundTrips (K : Collab) (t : K.QgsPropertyTransformer) : Prop :=
  (K.writeXml t (QgsProperty.transformerElement K t)).1 = true
    ∧ (K.writeXml t (QgsProperty.transformerElement K t)).2.tagName = "transformer"
    ∧ ∃ created,
        K.create (QString.toInt ((K.writeXml t (QgsProperty.transformerElement K t)).2.attributeOr "t" "0"))
            = some created
          ∧ (K.readXml created (K.writeXml t (QgsProperty.transformerElement K t)).2).1 = true
          ∧ K.toExpression (K.readXml created (K.writeXml t (QgsProperty.transformerElement K t)).2).2 ""
              = K.toExpression t ""

/-- The persistence contract of a static value `v`, as the round trip of a
Property needs it: the value rebuilt from the text `v.toString()`, converted to
the type named `v.typeName()`, compares equal to `v`. -/
def StaticValueRoundTrips (K : Collab) (v : K.QVariant) : Prop :=
  K.variantEq (K.convert (K.ofString (K.toString v)) (K.typeName v)) v = true

/-! ## Shared backing records -/

/-- Modelled from the spec: the store of backing records behind the
copy-on-write pointer `d` of `QgsProperty` (declared in `qgsproperty.h`).
`data a` is the record at the address `a`, `ref a` its reference count, `next`
the first address that was never handed out.  A `QgsProperty` object is the
address its pointer `d` holds. -/
structure Heap (K : Collab) where
  ref : Nat → Nat
  data : Nat → QgsPropertyPrivate K
  next : Nat

namespace Shared

/-- A write through `d->` to the record at the address `a`. -/
def store {K : Collab} (h : Heap K) (a : Nat) (d : QgsPropertyPrivate K) : Heap K :=
  { h with data := Function.update h.data a d }

/-- The call `d.detach()` of the explicitly shared pointer at the address `a`:
nothing happens when the record has the reference count 1; otherwise the
record is copied (`clone` is the copy constructor of `QgsPropertyPrivate`) to a
fresh address with the count 1, the count of the old record goes down by one,
and the pointer holds the fresh address. -/
def detach {K : Collab} (clone : QgsPropertyPrivate K → QgsPropertyPrivate K) (h : Heap K)
    (a : Nat) : Heap K × Nat :=
  if h.ref a ≠ 1 then
    ({ ref := Function.update (Function.update h.ref a (h.ref a - 1)) h.next 1
       data := Function.update h.data h.next (clone (h.data a))
       next := h.next + 1 },
      h.next)
  else (h, a)

/-- The copy constructor `QgsProperty( other )`: the new object holds the
address of `other`, whose record gains a reference. -/
def copy {K : Collab} (h : Heap K) (other : Nat) : Heap K × Nat :=
  ({ h with ref := Function.update h.ref other (h.ref other + 1) }, other)

/-- The assignment `operator=( other )` to an object that held the address
`self`: the record of `other` gains a reference, the record held before loses
one, and the object holds the address of `other`. -/
def assign {K : Collab} (h : Heap K) (self other : Nat) : Heap K × Nat :=
  if self = other then (h, other)
  else
    ({ h with
        ref := Function.update (Function.update h.ref other (h.ref other + 1)) self
          (h.ref self - 1) },
      other)

/-- The method `QgsProperty::setActive` on the store. -/
def setActive {K : Collab} (clone : QgsPropertyPrivate K → QgsPropertyPrivate K) (h : Heap K)
    (a : Nat) (active : Bool) : Heap K × Nat :=
  let r := detach clone h a
  (store r.1 r.2 { r.1.data r.2 with active := active }, r.2)

/-- The method `QgsProperty::setStaticValue` on the store. -/
def setStaticValue {K : Collab} (clone : QgsPropertyPrivate K → QgsPropertyPrivate K)
    (h : Heap K) (a : Nat) (value : K.QVariant) : Heap K × Nat :=
  let r := detach clone h a
  (store r.1 r.2 { r.1.data r.2 with type := StaticProperty, staticValue := value }, r.2)

/-- The method `QgsProperty::setField` on the store. -/
def setField {K : Collab} (clone : QgsPropertyPrivate K → QgsPropertyPrivate K) (h : Heap K)
    (a : Nat) (field : String) : Heap K × Nat :=
  let r := detach clone h a
  (store r.1 r.2
      { r.1.data r.2 with type := FieldBasedProperty, fieldName := field, cachedFieldIdx := -1 },
    r.2)

/-- The method `QgsProperty::setExpressionString` on the store. -/
def setExpressionString {K : Collab} (clone : QgsPropertyPrivate K → QgsPropertyPrivate K)
    (h : Heap K) (a : Nat) (expression : String) : Heap K × Nat :=
  let r := detach clone h a
  (store r.1 r.2
      { r.1.data r.2 with
        type := ExpressionBasedProperty
        expressionString := expression
        expression := K.mkExpression expression
        expressionPrepared := false },
    r.2)

/-- The method `QgsProperty::setTransformer` on the store. -/
def setTransformer {K : Collab} (clone : QgsPropertyPrivate K → QgsPropertyPrivate K)
    (h : Heap K) (a : Nat) (transformer : Option K.QgsPropertyTransformer) : Heap K × Nat :=
  let r := detach clone h a
  (store r.1 r.2 { r.1.data r.2 with transformer := transformer }, r.2)

/-- The method `QgsProperty::readXml` on the store: it detaches first, and all
its reads and writes then go to the record the pointer holds. -/
def readXml {K : Collab} (clone : QgsPropertyPrivate K → QgsPropertyPrivate K) (h : Heap K)
    (a : Nat) (propertyElem : QDomElement) : Bool × Heap K × Nat :=
  let r := detach clone h a
  ((QgsProperty.readXml K (r.1.data r.2) propertyElem).1,
    store r.1 r.2 (QgsProperty.readXml K (r.1.data r.2) propertyElem).2, r.2)

/-- The method `QgsProperty::prepare` on the store. -/
def prepare {K : Collab} (clone : QgsPropertyPrivate K → QgsPropertyPrivate K) (h : Heap K)
    (a : Nat) (context : QgsExpressionContext K.QVariant) : Bool × Heap K × Nat :=
  if !(h.data a).active then (true, h, a)
  else if (h.data a).type = StaticProperty then (true, h, a)
  else if (h.data a).type = FieldBasedProperty then
    let r := detach clone h a
    (true,
      store r.1 r.2
        { r.1.data r.2 with
          cachedFieldIdx := context.fields.lookupField (r.1.data r.2).fieldName },
      r.2)
  else if (h.data a).type = ExpressionBasedProperty then
    let r := detach clone h a
    match K.prepare (r.1.data r.2).expression context with
    | (false, e) =>
      (false,
        store r.1 r.2
          { r.1.data r.2 with
            expression := e, expressionReferencedCols := ∅, expressionPrepared := false },
        r.2)
    | (true, e) =>
      (true,
        store r.1 r.2
          { r.1.data r.2 with
            expression := e
            expressionPrepared := true
            expressionReferencedCols := K.referencedColumns e },
        r.2)
  else if (h.data a).type = InvalidProperty then (true, h, a)
  else (false, h, a)

/-- The method `QgsProperty::referencedFields` on the store. -/
def referencedFields {K : Collab} (clone : QgsPropertyPrivate K → QgsPropertyPrivate K)
    (h : Heap K) (a : Nat) (context : QgsExpressionContext K.QVariant) :
    Finset String × Heap K × Nat :=
  if !(h.data a).active then (∅, h, a)
  else if (h.data a).type = StaticProperty ∨ (h.data a).type = InvalidProperty then (∅, h, a)
  else if (h.data a).type = FieldBasedProperty then
    (if (h.data a).fieldName ≠ "" then {(h.data a).fieldName} else ∅, h, a)
  else if (h.data a).type = ExpressionBasedProperty then
    let r := detach clone h a
    match (if (r.1.data r.2).expressionPrepared then (true, r.1, r.2)
           else prepare clone r.1 r.2 context) with
    | (false, h2, a2) => (∅, h2, a2)
    | (true, h2, a2) => ((h2.data a2).expressionReferencedCols, h2, a2)
  else (∅, h, a)

/-- The method `QgsProperty::propertyValue` on the store. -/
def propertyValue {K : Collab} (clone : QgsPropertyPrivate K → QgsPropertyPrivate K)
    (h : Heap K) (a : Nat) (context : QgsExpressionContext K.QVariant)
    (defaultValue : K.QVariant) : K.QVariant × Bool × Heap K × Nat :=
  if !(h.data a).active then (defaultValue, false, h, a)
  else if (h.data a).type = StaticProperty then ((h.data a).staticValue, true, h, a)
  else if (h.data a).type = FieldBasedProperty then
    let f := context.feature
    if !f.isValid then (defaultValue, false, h, a)
    else if (h.data a).cachedFieldIdx ≥ 0 then
      (f.attributeAt (h.data a).cachedFieldIdx, true, h, a)
    else
      let fieldIdx := f.fieldNameIndex (h.data a).fieldName
      if fieldIdx < 0 then (defaultValue, false, h, a)
      else (f.attributeAt fieldIdx, true, h, a)
  else if (h.data a).type = ExpressionBasedProperty then
    let r := detach clone h a
    match (if (r.1.data r.2).expressionPrepared then (true, r.1, r.2)
           else prepare clone r.1 r.2 context) with
    | (false, h2, a2) => (defaultValue, false, h2, a2)
    | (true, h2, a2) =>
      match K.evaluate (h2.data a2).expression context with
      | (result, e) =>
        if K.isValid result then
          (result, true, store h2 a2 { h2.data a2 with expression := e }, a2)
        else (defaultValue, false, store h2 a2 { h2.data a2 with expression := e }, a2)
  else if (h.data a).type = InvalidProperty then (defaultValue, false, h, a)
  else (K.null, false, h, a)

/-- The method `QgsProperty::convertToTransformer` on the store. -/
def convertToTransformer {K : Collab} (clone : QgsPropertyPrivate K → QgsPropertyPrivate K)
    (h : Heap K) (a : Nat) : Bool × Heap K × Nat :=
  if (h.data a).type ≠ ExpressionBasedProperty then (false, h, a)
  else if (h.data a).transformer.isSome then (false, h, a)
  else
    match K.fromExpression (h.data a).expressionString with
    | none => (false, h, a)
    | some (transformer, baseExpression, fieldName) =>
      let r := detach clone h a
      let h1 := store r.1 r.2 { r.1.data r.2 with transformer := some transformer }
      if fieldName ≠ "" then (true, setField clone h1 r.2 fieldName)
      else (true, setExpressionString clone h1 r.2 baseExpression)

end Shared

/-- The operations of the copy-isolation property: the setters and the
cache-populating calls, with their arguments. -/
inductive Operation (K : Collab) where
  | setActive (active : Bool)
  | setStaticValue (value : K.QVariant)
  | setField (field : String)
  | setExpressionString (expression : String)
  | setTransformer (transformer : Option K.QgsPropertyTransformer)
  | readXml (propertyElem : QDomElement)
  | convertToTransformer
  | prepare (context : QgsExpressionContext K.QVariant)
  | referencedFields (context : QgsExpressionContext K.QVariant)
  | propertyValue (context : QgsExpressionContext K.QVariant) (defaultValue : K.QVariant)

namespace Shared

/-- One operation applied to the object at the address `a`: the store and the
address the object holds afterwards. -/
def run {K : Collab} (clone : QgsPropertyPrivate K → QgsPropertyPrivate K) (h : Heap K)
    (a : Nat) : Operation K → Heap K × Nat
  | .setActive active => setActive clone h a active
  | .setStaticValue value => setStaticValue clone h a value
  | .setField field => setField clone h a field
  | .setExpressionString expression => setExpressionString clone h a expression
  | .setTransformer transformer => setTransformer clone h a transformer
  | .readXml propertyElem => (readXml clone h a propertyElem).2
  | .convertToTransformer => (convertToTransformer clone h a).2
  | .prepare context => (prepare clone h a context).2
  | .referencedFields context => (referencedFields clone h a context).2
  | .propertyValue context defaultValue => (propertyValue clone h a context defaultValue).2.2

/-- A sequence of operations applied, one after the other, to one object. -/
def runAll {K : Collab} (clone : QgsPropertyPrivate K → QgsPropertyPrivate K) :
    Heap K → Nat → List (Operation K) → Heap K × Nat
  | h, a, [] => (h, a)
  | h, a, op :: rest => runAll clone (run clone h a op).1 (run clone h a op).2 rest

/-- The object at the address `a` does not own the record at `p` alone: `p` was
handed out, and when `a` is `p` the record has at least two references. -/
def Apart {K : Collab} (p : Nat) (h : Heap K) (a : Nat) : Prop :=
  p < h.next ∧ (a = p → 2 ≤ h.ref p)

/-- What a step from `(h, a)` to `(h2, a2)` leaves of the record at `p`: its
contents, its being handed out, and, when the object still holds `p`, that it
held `p` before and the reference count of `p` is as before. -/
def Keeps {K : Collab} (p : Nat) (h : Heap K) (a : Nat) (h2 : Heap K) (a2 : Nat) : Prop :=
  h2.data p = h.data p ∧ p < h2.next ∧ (a2 = p → a = p ∧ h2.ref p = h.ref p)

end Shared

/-- Two backing records show the same state: active flag, type tag, the three
payloads, cached field index, prepared flag and referenced-column set. -/
def SameState (K : Collab) (a b : QgsPropertyPrivate K) : Prop :=
  a.active = b.active ∧ a.type = b.type ∧ a.staticValue = b.staticValue
    ∧ a.fieldName = b.fieldName ∧ a.expressionString = b.expressionString
    ∧ a.cachedFieldIdx = b.cachedFieldIdx ∧ a.expressionPrepared = b.expressionPrepared
    ∧ a.expressionReferencedCols = b.expressionReferencedCols

/-! ## A concrete set of collaborators for the worked examples -/

/-- A small variant type: the undefined value, integers and strings. -/
inductive SampleVariant where
  | invalid
  | int (n : Int)
  | string (s : String)
  deriving DecidableEq

/-- A small expression object: a reference to one column, with the index that
the last successful `prepare` resolved (`-1` when unprepared). -/
structure SampleExpression where
  column : String
  resolved : Int
  deriving DecidableEq

/-- A small transformer: adds a fixed offset to an integer input and maps any
other input (also the undefined value) to the offset itself. -/
structure SampleTransformer where
  offset : Int
  deriving DecidableEq

/-- The collaborators of the worked examples. -/
def Sample : Collab where
  QVariant := SampleVariant
  null := SampleVariant.invalid
  isValid := fun v => decide (v ≠ SampleVariant.invalid)
  variantEq := fun a b => decide (a = b)
  typeName := fun v =>
    match v with
    | .invalid => ""
    | .int _ => "int"
    | .string _ => "QString"
  toString := fun v =>
    match v with
    | .invalid => ""
    | .int n => QString.number n
    | .string s => s
  ofString := fun s => SampleVariant.string s
  convert := fun v n =>
    match v with
    | .string s =>
      if n = "QString" then SampleVariant.string s
      else if n = "int" then SampleVariant.int (QString.toInt s)
      else SampleVariant.invalid
    | .int k => if n = "int" then SampleVariant.int k else SampleVariant.invalid
    | .invalid => SampleVariant.invalid
  QgsExpression := SampleExpression
  emptyExpression := ⟨"", -1⟩
  mkExpression := fun text => ⟨text, -1⟩
  prepare := fun e c =>
    (decide (0 ≤ c.fields.lookupField e.column), ⟨e.column, c.fields.lookupField e.column⟩)
  evaluate := fun e c => (c.feature.attributeAt e.resolved, e)
  referencedColumns := fun e => {e.column}
  QgsPropertyTransformer := SampleTransformer
  transform := fun t _ v =>
    match v with
    | .int n => SampleVariant.int (n + t.offset)
    | _ => SampleVariant.int t.offset
  toExpression := fun t base => base ++ " + " ++ QString.number t.offset
  transformerType := fun _ => 1
  writeXml := fun t e => (true, e.setAttribute "offset" (QString.number t.offset))
  readXml := fun _ e => (true, ⟨QString.toInt (e.attributeOr "offset" "0")⟩)
  create := fun ty => if ty = 1 then some ⟨0⟩ else none
  fromExpression := fun text =>
    if text = "pop + 1" then some (⟨1⟩, "", "pop")
    else if text = "(a * b) + 1" then some (⟨1⟩, "a * b", "")
    else none

/-- A context whose schema and current record have the single field `name`,
the record holding the text `Oslo`. -/
def nameContext : QgsExpressionContext Sample.QVariant where
  fields := ⟨fun n => if n = "name" then 0 else -1⟩
  feature :=
    { isValid := true
      attributeAt := fun i => if i = 0 then SampleVariant.string "Oslo" else SampleVariant.invalid
      fieldNameIndex := fun n => if n = "name" then 0 else -1 }

/-- A context whose schema and current record have the single field `pop`,
the record holding the integer `5`. -/
def popContext : QgsExpressionContext Sample.QVariant where
  fields := ⟨fun n => if n = "pop" then 0 else -1⟩
  feature :=
    { isValid := true
      attributeAt := fun i => if i = 0 then SampleVariant.int 5 else SampleVariant.invalid
      fieldNameIndex := fun n => if n = "pop" then 0 else -1 }

/-- Modelled from the spec: the static helpers `QgsExpression::quotedValue` and
`QgsExpression::quotedColumnRef` (not part of `qgsproperty.cpp`) for the sample
values: a string renders as a quoted literal between single quotes, as the
spec's `'red'`; an integer as its digits, the undefined value as `NULL`, a
column reference between double quotes. -/
def SampleQuoting : Quoting Sample where
  quotedValue := fun v =>
    match v with
    | .invalid => "NULL"
    | .int n => QString.number n
    | .string s => "'" ++ s ++ "'"
  quotedColumnRef := fun n => "\"" ++ n ++ "\""

/-- The numeric conversions of the sample values: an integer converts to itself,
a string when it is the text of a 32 bit integer, the undefined value not at
all; the sample `double` values are the integers, rounded to themselves. -/
def SampleNumeric : NumericOps Sample where
  Double := Int
  ofInt := fun n => SampleVariant.int n
  toInt := fun v =>
    match v with
    | .invalid => (0, false)
    | .int n => (n, true)
    | .string s =>
      match parseSigned (trimSpaces s.toList) with
      | some n => if -2147483648 ≤ n ∧ n ≤ 2147483647 then (n, true) else (0, false)
      | none => (0, false)
  toDouble := fun v =>
    match v with
    | .invalid => (0, false)
    | .int n => (n, true)
    | .string _ => (0, false)
  qRound := fun x => x

/-- A Static element without a `transformer` child whose only child, a
`wrapper` element, has a `transformer` child of the known type 1 with offset
5. -/
def nestedTransformerElement : QDomElement :=
  QDomElement.mk "prop" [("active", "1"), ("type", "1"), ("valType", "QString"), ("val", "x")]
    (QDomNodeList.cons
      (QDomElement.mk "wrapper" []
        (QDomNodeList.cons
          (QDomElement.mk "transformer" [("t", "1"), ("offset", "5")] QDomNodeList.nil)
          QDomNodeList.nil))
      QDomNodeList.nil)

/-- The other conversions of the sample values: a colour is its name, valid
when it is one of `red`, `green`, `blue`; no sample value is of colour type; a
`double` and a `bool` are stored as integers, and every value but `0`, the empty
text and the undefined value converts to true. -/
def SampleTyped : TypedOps Sample SampleNumeric where
  QColor := String
  ofColor := fun c => SampleVariant.string c
  isColor := fun _ => false
  toColor := fun _ => ""
  decodeColor := fun s => if s = "red" ∨ s = "green" ∨ s = "blue" then s else ""
  colorIsValid := fun c => decide (c ≠ "")
  ofDouble := fun x => SampleVariant.int x
  ofBool := fun b => SampleVariant.int (if b then 1 else 0)
  toBool := fun v =>
    match v with
    | .invalid => false
    | .int n => decide (n ≠ 0)
    | .string s => decide (s ≠ "")

/-- A context whose schema and current record have the fields `pop` (index 0,
holding `5`) and `name` (index 1, holding the text `Oslo`). -/
def cityContext : QgsExpressionContext Sample.QVariant where
  fields := ⟨fun n => if n = "pop" then 0 else if n = "name" then 1 else -1⟩
  feature :=
    { isValid := true
      attributeAt := fun i =>
        if i = 0 then SampleVariant.int 5
        else if i = 1 then SampleVariant.string "Oslo"
        else SampleVariant.invalid
      fieldNameIndex := fun n => if n = "pop" then 0 else if n = "name" then 1 else -1 }

/-- A persisted FieldBound element for the field `name`. -/
def nameFieldElement : QDomElement :=
  QDomElement.mk "prop" [("active", "1"), ("type", "2"), ("field", "name")] QDomNodeList.nil

/-- A persisted element whose `type` attribute is `7`. -/
def typeSevenElement : QDomElement :=
  QDomElement.mk "prop" [("active", "1"), ("type", "7")] QDomNodeList.nil

/-- A variant type with numbers: the undefined value, the numbers, and the
floating point value NaN, which a `double` variant can hold. -/
inductive NumberVariant where
  | invalid
  | number (x : Int)
  | nan
  deriving DecidableEq

/-- Collaborators over `NumberVariant`.  The comparison of two variants is the
comparison of the numbers they hold, so that NaN compares unequal to every
value, itself included.  Expressions and transformers play no part: there is
one expression object, which prepares and evaluates to the undefined value,
and the factory knows no transformer. -/
def NumberSample : Collab where
  QVariant := NumberVariant
  null := NumberVariant.invalid
  isValid := fun v => decide (v ≠ NumberVariant.invalid)
  variantEq := fun a b =>
    match a, b with
    | .nan, _ => false
    | _, .nan => false
    | .invalid, .invalid => true
    | .number x, .number y => decide (x = y)
    | _, _ => false
  typeName := fun v =>
    match v with
    | .invalid => ""
    | .number _ => "double"
    | .nan => "double"
  toString := fun v =>
    match v with
    | .invalid => ""
    | .number x => QString.number x
    | .nan => "nan"
  ofString := fun s => if s = "nan" then NumberVariant.nan else NumberVariant.number (QString.toInt s)
  convert := fun v n => if n = "double" then v else NumberVariant.invalid
  QgsExpression := Unit
  emptyExpression := ()
  mkExpression := fun _ => ()
  prepare := fun _ _ => (true, ())
  evaluate := fun _ _ => (NumberVariant.invalid, ())
  referencedColumns := fun _ => ∅
  QgsPropertyTransformer := Unit
  transform := fun _ _ v => v
  toExpression := fun _ base => base
  transformerType := fun _ => 0
  writeXml := fun _ e => (true, e)
  readXml := fun t _ => (true, t)
  create := fun _ => none
  fromExpression := fun _ => none

/-- A context over `NumberVariant` with no fields and no current record. -/
def numberContext : QgsExpressionContext NumberSample.QVariant where
  fields := ⟨fun _ => -1⟩
  feature :=
    { isValid := false
      attributeAt := fun _ => NumberVariant.invalid
      fieldNameIndex := fun _ => -1 }

/-- The Property `fromValue( NaN, true )`. -/
def nanProperty : QgsPropertyPrivate NumberSample :=
  QgsProperty.fromValue NumberSample NumberVariant.nan true

/-- A store with one object, at the address 0: the Property
`fromField( "pop", true )`, held by one reference. -/
def popStore : Heap Sample where
  ref := fun a => if a = 0 then 1 else 0
  data := fun _ => QgsProperty.fromField Sample "pop" true
  next := 1

/-- The Property `fromField( "pop", true )`. -/
def popField : QgsPropertyPrivate Sample :=
  QgsProperty.fromField Sample "pop" true

/-- The Property `fromExpression( "pop", true )`: with the sample expression
object, a reference to the column `pop`. -/
def popExpression : QgsPropertyPrivate Sample :=
  QgsProperty.fromExpression Sample "pop" true

/-- An active Static Property holding `42`, with the offset-3 transformer
attached. -/
def staticWithTransformer : QgsPropertyPrivate Sample :=
  QgsProperty.setTransformer Sample (QgsProperty.fromValue Sample (SampleVariant.int 42) true)
    (some ⟨3⟩)

/-- An inactive Static Property holding `99`, with the offset-3 transformer
attached. -/
def inactiveWithTransformer : QgsPropertyPrivate Sample :=
  QgsProperty.setTransformer Sample (QgsProperty.fromValue Sample (SampleVariant.int 99) false)
    (some ⟨3⟩)

/-! ## Evaluation: `value` and `propertyValue` -/

/-- The transformer of a Property is the same before and after `prepare`. -/
theorem prepare_transformer (K : Collab) (d : QgsPropertyPrivate K)
    (c : QgsExpressionContext K.QVariant) :
    (QgsProperty.prepare K d c).2.transformer = d.transformer := by
  unfold QgsProperty.prepare
  split_ifs <;> try rfl
  rcases h : K.prepare d.expression c with ⟨b, e⟩
  cases b <;> rfl

/-- The transformer of a Property is the same before and after
`propertyValue`. -/
theorem propertyValue_transformer (K : Collab) (d : QgsPropertyPrivate K)
    (c : QgsExpressionContext K.QVariant) (dv : K.QVariant) :
    (QgsProperty.propertyValue K d c dv).2.2.transformer = d.transformer := by
  have hp := prepare_transformer K d c
  unfold QgsProperty.propertyValue
  split_ifs
  all_goals try rfl
  all_goals try (simp only []; split_ifs <;> rfl)
  · rcases h : QgsProperty.prepare K d c with ⟨b, d1⟩
    rw [h] at hp
    cases b
    · exact hp
    · simp only []
      split_ifs <;> exact hp

/-- C1, on the code: an inactive Property with a transformer attached does not
yield the default with `ok = false`: `value` hands the undefined value to the
transformer and reports `ok = true`. -/
theorem value_inactive_transformer_counterexample :
    inactiveWithTransformer.active = false
      ∧ QgsProperty.value Sample inactiveWithTransformer nameContext (SampleVariant.int 0)
          = (SampleVariant.int 3, true, inactiveWithTransformer) :=
  ⟨rfl, rfl⟩

/-- C1, amended: for an inactive Property, `value(c, d)` is `(d, false)` when no
transformer is attached, whatever the source variant; with a transformer `t`
attached it is `(t.transform(c, undefined), true)`.  The backing record is
unchanged. -/
theorem value_inactive (K : Collab) (d : QgsPropertyPrivate K)
    (c : QgsExpressionContext K.QVariant) (dv : K.QVariant) (hinactive : d.active = false) :
    QgsProperty.value K d c dv =
      match d.transformer with
      | none => (dv, false, d)
      | some t => (K.transform t c K.null, true, d) := by
  rcases h : d.transformer with _ | t <;>
    simp [QgsProperty.value, QgsProperty.propertyValue, hinactive, h]

/-- C1, amended, at a concrete input: an inactive Static Property holding `99`
with no transformer yields the default, never `99`. -/
theorem value_inactive_witness :
    (QgsProperty.fromValue Sample (SampleVariant.int 99) false).active = false
      ∧ (QgsProperty.fromValue Sample (SampleVariant.int 99) false).transformer = none
      ∧ QgsProperty.value Sample (QgsProperty.fromValue Sample (SampleVariant.int 99) false)
          nameContext (SampleVariant.int 7)
        = (SampleVariant.int 7, false, QgsProperty.fromValue Sample (SampleVariant.int 99) false) :=
  ⟨rfl, rfl,
    (value_inactive Sample (QgsProperty.fromValue Sample (SampleVariant.int 99) false) nameContext
      (SampleVariant.int 7) rfl).trans rfl⟩

/-- When `propertyValue` reports `ok = false` for a Property that is inactive
or carries one of the four type tags, the value it returns is the caller's
default. -/
theorem propertyValue_failure_default (K : Collab) (d : QgsPropertyPrivate K)
    (c : QgsExpressionContext K.QVariant) (dv : K.QVariant)
    (htag : d.active = false ∨ d.type = InvalidProperty ∨ d.type = StaticProperty
      ∨ d.type = FieldBasedProperty ∨ d.type = ExpressionBasedProperty)
    (hfail : (QgsProperty.propertyValue K d c dv).2.1 = false) :
    (QgsProperty.propertyValue K d c dv).1 = dv := by
  unfold QgsProperty.propertyValue at hfail ⊢
  by_cases ha : d.active = true
  swap
  · simp [ha]
  by_cases h1 : d.type = StaticProperty
  · simp [ha, h1] at hfail
  by_cases h2 : d.type = FieldBasedProperty
  · simp only [ha, h1, h2] at hfail ⊢
    revert hfail
    split_ifs <;> simp
  by_cases h3 : d.type = ExpressionBasedProperty
  · simp only [ha, h1, h2, h3] at hfail ⊢
    revert hfail
    rcases (if d.expressionPrepared = true then (true, d) else QgsProperty.prepare K d c)
      with ⟨b, d1⟩
    cases b
    · simp
    · simp only []
      split_ifs <;> simp
  · have h0 : d.type = InvalidProperty := by
      rcases htag with h | h | h | h | h
      · simp [h] at ha
      · exact h
      · exact absurd h h1
      · exact absurd h h2
      · exact absurd h h3
    simp [ha, h0]

/-- C4: `value(c, d)` is determined by the result `(v, ok)` of
`propertyValue(c, d)` and the transformer of the Property.  With no transformer
it is `(v, true)` when resolution succeeded and `(d, false)` when it failed;
with a transformer `t` it is `t.transform(c, v)` with `ok = true`, where the
input is the resolved value when resolution succeeded and the undefined value
when it failed.  The backing record after `value` is the one `propertyValue`
leaves.  For a Property that is inactive or carries one of the four type tags,
`propertyValue` itself returns `d` when it fails, so that with no transformer
`value` and `propertyValue` return the same triple. -/
theorem value_of_propertyValue (K : Collab) (d : QgsPropertyPrivate K)
    (c : QgsExpressionContext K.QVariant) (dv : K.QVariant) :
    QgsProperty.value K d c dv =
        (match d.transformer with
         | none =>
           if (QgsProperty.propertyValue K d c dv).2.1 = true then
             ((QgsProperty.propertyValue K d c dv).1, true,
               (QgsProperty.propertyValue K d c dv).2.2)
           else (dv, false, (QgsProperty.propertyValue K d c dv).2.2)
         | some t =>
           (K.transform t c
               (if (QgsProperty.propertyValue K d c dv).2.1 = true then
                 (QgsProperty.propertyValue K d c dv).1
                else K.null),
             true, (QgsProperty.propertyValue K d c dv).2.2))
      ∧ (d.transformer = none →
          (d.active = false ∨ d.type = InvalidProperty ∨ d.type = StaticProperty
            ∨ d.type = FieldBasedProperty ∨ d.type = ExpressionBasedProperty) →
          QgsProperty.value K d c dv = QgsProperty.propertyValue K d c dv) := by
  have hframe := propertyValue_transformer K d c dv
  have hdefault := propertyValue_failure_default K d c dv
  unfold QgsProperty.value
  rcases hpv : QgsProperty.propertyValue K d c dv with ⟨v, ok, d1⟩
  rw [hpv] at hframe hdefault
  simp only at hframe hdefault
  simp only [hframe]
  constructor
  · rcases d.transformer with _ | t <;> cases ok <;> simp
  · intro hnone htag
    cases ok
    · simp [hnone, hdefault htag rfl]
    · simp [hnone]

/-! ## FieldBound evaluation -/

/-- The FieldBound branch of `propertyValue` for an active Property. -/
theorem propertyValue_field (K : Collab) (d : QgsPropertyPrivate K)
    (c : QgsExpressionContext K.QVariant) (dv : K.QVariant)
    (hactive : d.active = true) (htype : d.type = FieldBasedProperty) :
    QgsProperty.propertyValue K d c dv =
      if c.feature.isValid = false then (dv, false, d)
      else if 0 ≤ d.cachedFieldIdx then (c.feature.attributeAt d.cachedFieldIdx, true, d)
      else if c.feature.fieldNameIndex d.fieldName < 0 then (dv, false, d)
      else (c.feature.attributeAt (c.feature.fieldNameIndex d.fieldName), true, d) := by
  simp [QgsProperty.propertyValue, hactive, htype]

/-- The FieldBound branch of `prepare` for an active Property. -/
theorem prepare_field (K : Collab) (d : QgsPropertyPrivate K)
    (c : QgsExpressionContext K.QVariant)
    (hactive : d.active = true) (htype : d.type = FieldBasedProperty) :
    QgsProperty.prepare K d c
      = (true, { d with cachedFieldIdx := c.fields.lookupField d.fieldName }) := by
  simp [QgsProperty.prepare, hactive, htype]

/-- C3, on the code: the FieldBound Property `pop`, prepared against a schema
where `pop` has index 0, and then evaluated against a valid record that has no
field `pop`, does not yield the default: it returns that record's attribute 0
with `ok = true`. -/
theorem stale_field_index_counterexample :
    popField.active = true
      ∧ popField.type = FieldBasedProperty
      ∧ (QgsProperty.prepare Sample popField popContext).1 = true
      ∧ (QgsProperty.prepare Sample popField popContext).2.cachedFieldIdx = 0
      ∧ nameContext.feature.isValid = true
      ∧ nameContext.feature.fieldNameIndex "pop" = -1
      ∧ QgsProperty.propertyValue Sample (QgsProperty.prepare Sample popField popContext).2
            nameContext (SampleVariant.int 0)
          = (SampleVariant.string "Oslo", true,
              (QgsProperty.prepare Sample popField popContext).2) :=
  ⟨rfl, rfl, rfl, rfl, rfl, rfl, rfl⟩

/-- C3, amended: for an active FieldBound Property that `prepare(c1)` resolved
to a non-negative index against the schema of `c1`, `propertyValue(c2, d)`
against a context `c2` whose current record is valid but has no field of that
name returns the attribute of that record at the index cached from `c1`, with
`ok = true`; the field name is not resolved again. -/
theorem propertyValue_after_prepare_uses_cached_index (K : Collab) (p : QgsPropertyPrivate K)
    (c1 c2 : QgsExpressionContext K.QVariant) (dv : K.QVariant)
    (hactive : p.active = true) (htype : p.type = FieldBasedProperty)
    (hresolved : 0 ≤ (QgsProperty.prepare K p c1).2.cachedFieldIdx)
    (hvalid : c2.feature.isValid = true)
    (_hmissing : c2.feature.fieldNameIndex p.fieldName < 0) :
    (QgsProperty.prepare K p c1).2.cachedFieldIdx = c1.fields.lookupField p.fieldName
      ∧ QgsProperty.propertyValue K (QgsProperty.prepare K p c1).2 c2 dv
          = (c2.feature.attributeAt (c1.fields.lookupField p.fieldName), true,
              (QgsProperty.prepare K p c1).2) := by
  rw [prepare_field K p c1 hactive htype] at hresolved ⊢
  refine ⟨rfl, ?_⟩
  have h := propertyValue_field K { p with cachedFieldIdx := c1.fields.lookupField p.fieldName }
    c2 dv hactive htype
  have hidx : 0 ≤ c1.fields.lookupField p.fieldName := hresolved
  exact h.trans (by simp [hvalid, hidx])

/-- C3, amended, at a concrete input: `pop` prepared against `popContext` and
evaluated against `nameContext`. -/
theorem propertyValue_after_prepare_uses_cached_index_witness :
    popField.active = true
      ∧ popField.type = FieldBasedProperty
      ∧ 0 ≤ (QgsProperty.prepare Sample popField popContext).2.cachedFieldIdx
      ∧ nameContext.feature.isValid = true
      ∧ nameContext.feature.fieldNameIndex popField.fieldName < 0
      ∧ ((QgsProperty.prepare Sample popField popContext).2.cachedFieldIdx
            = popContext.fields.lookupField popField.fieldName
          ∧ QgsProperty.propertyValue Sample (QgsProperty.prepare Sample popField popContext).2
              nameContext (SampleVariant.int 0)
            = (nameContext.feature.attributeAt
                (popContext.fields.lookupField popField.fieldName),
               true, (QgsProperty.prepare Sample popField popContext).2)) :=
  ⟨rfl, rfl, by decide, rfl, by decide,
    propertyValue_after_prepare_uses_cached_index Sample popField popContext nameContext
      (SampleVariant.int 0) rfl rfl (by decide) rfl (by decide)⟩

/-- C5: for an active FieldBound Property whose field index is unresolved
(negative, as after `fromField`), `propertyValue(c, d)` is `(d, false)` when
the current record of `c` is invalid or has no field of that name, and
otherwise the attribute of the record at the index of the name, with
`ok = true`.  The backing record is unchanged. -/
theorem propertyValue_field_unresolved (K : Collab) (p : QgsPropertyPrivate K)
    (c : QgsExpressionContext K.QVariant) (dv : K.QVariant)
    (hactive : p.active = true) (htype : p.type = FieldBasedProperty)
    (hunresolved : p.cachedFieldIdx < 0) :
    QgsProperty.propertyValue K p c dv =
      if c.feature.isValid = false ∨ c.feature.fieldNameIndex p.fieldName < 0 then (dv, false, p)
      else (c.feature.attributeAt (c.feature.fieldNameIndex p.fieldName), true, p) := by
  rw [propertyValue_field K p c dv hactive htype]
  have hneg : ¬ (0 ≤ p.cachedFieldIdx) := not_le.mpr hunresolved
  by_cases hv : c.feature.isValid = false
  · simp [hv]
  · by_cases hi : c.feature.fieldNameIndex p.fieldName < 0
    · simp [hv, hi, hneg]
    · simp [hv, hi, hneg]

/-- C5 at the concrete input of the claim: `fromField("pop", true)` against a
record that has no field `pop` returns the default with `ok = false`. -/
theorem propertyValue_field_unresolved_witness :
    popField.active = true
      ∧ popField.type = FieldBasedProperty
      ∧ popField.cachedFieldIdx < 0
      ∧ nameContext.feature.fieldNameIndex "pop" < 0
      ∧ QgsProperty.propertyValue Sample popField nameContext (SampleVariant.int 7)
          = (SampleVariant.int 7, false, popField) :=
  ⟨rfl, rfl, by decide, by decide,
    (propertyValue_field_unresolved Sample popField nameContext (SampleVariant.int 7)
      rfl rfl (by decide)).trans rfl⟩

/-! ## ExpressionBound evaluation -/

/-- The ExpressionBound branch of `prepare` for an active Property. -/
theorem prepare_expression (K : Collab) (d : QgsPropertyPrivate K)
    (c : QgsExpressionContext K.QVariant)
    (hactive : d.active = true) (htype : d.type = ExpressionBasedProperty) :
    QgsProperty.prepare K d c =
      if (K.prepare d.expression c).1 = true then
        (true, { d with
                  expression := (K.prepare d.expression c).2
                  expressionPrepared := true
                  expressionReferencedCols := K.referencedColumns (K.prepare d.expression c).2 })
      else
        (false, { d with
                   expression := (K.prepare d.expression c).2
                   expressionReferencedCols := ∅
                   expressionPrepared := false }) := by
  rcases h : K.prepare d.expression c with ⟨b, e⟩
  cases b <;> simp [QgsProperty.prepare, hactive, htype, h]

/-- C6: for an active ExpressionBound Property, `propertyValue(c, d)`
* when unprepared and the expression's `prepare` fails: returns `(d, false)`
  without evaluating, and leaves the Property active, ExpressionBound and
  unprepared (holding the expression object that `prepare` left), so that the
  next `propertyValue` call runs `prepare` again: against a context where
  `prepare` now succeeds it evaluates and the Property ends up prepared;
* when unprepared and the expression's `prepare` succeeds: evaluates the
  prepared expression and returns `(result, true)` for a defined result and
  `(d, false)` for an undefined one, with the prepared flag set and the
  referenced columns recorded;
* when already prepared: evaluates without preparing, with the same rule for
  the result. -/
theorem propertyValue_expression (K : Collab) (p : QgsPropertyPrivate K)
    (c : QgsExpressionContext K.QVariant) (dv : K.QVariant)
    (hactive : p.active = true) (htype : p.type = ExpressionBasedProperty) :
    (∀ e, p.expressionPrepared = false → K.prepare p.expression c = (false, e) →
        QgsProperty.propertyValue K p c dv
            = (dv, false,
                { p with expression := e, expressionReferencedCols := ∅,
                         expressionPrepared := false })
          ∧ (QgsProperty.propertyValue K p c dv).2.2.active = true
          ∧ (QgsProperty.propertyValue K p c dv).2.2.type = ExpressionBasedProperty
          ∧ (QgsProperty.propertyValue K p c dv).2.2.expressionPrepared = false
          ∧ ∀ c2 dv2 e2, K.prepare e c2 = (true, e2) →
              (QgsProperty.propertyValue K (QgsProperty.propertyValue K p c dv).2.2 c2 dv2).1
                  = (if K.isValid (K.evaluate e2 c2).1 = true then (K.evaluate e2 c2).1 else dv2)
                ∧ (QgsProperty.propertyValue K (QgsProperty.propertyValue K p c dv).2.2 c2 dv2).2.1
                  = K.isValid (K.evaluate e2 c2).1
                ∧ (QgsProperty.propertyValue K (QgsProperty.propertyValue K p c dv).2.2
                    c2 dv2).2.2.expressionPrepared = true)
      ∧ (∀ e, p.expressionPrepared = false → K.prepare p.expression c = (true, e) →
          QgsProperty.propertyValue K p c dv
            = if K.isValid (K.evaluate e c).1 = true then
                ((K.evaluate e c).1, true,
                  { p with expression := (K.evaluate e c).2, expressionPrepared := true,
                           expressionReferencedCols := K.referencedColumns e })
              else
                (dv, false,
                  { p with expression := (K.evaluate e c).2, expressionPrepared := true,
                           expressionReferencedCols := K.referencedColumns e }))
      ∧ (p.expressionPrepared = true →
          QgsProperty.propertyValue K p c dv
            = if K.isValid (K.evaluate p.expression c).1 = true then
                ((K.evaluate p.expression c).1, true,
                  { p with expression := (K.evaluate p.expression c).2 })
              else (dv, false, { p with expression := (K.evaluate p.expression c).2 })) := by
  refine ⟨?_, ?_, ?_⟩
  · intro e hunprepared hfail
    have hpv : QgsProperty.propertyValue K p c dv
        = (dv, false,
            { p with expression := e, expressionReferencedCols := ∅,
                     expressionPrepared := false }) := by
      simp [QgsProperty.propertyValue, QgsProperty.prepare, hactive, htype, hunprepared, hfail]
    refine ⟨hpv, ?_, ?_, ?_, ?_⟩
    · rw [hpv]; exact hactive
    · rw [hpv]; exact htype
    · rw [hpv]
    · intro c2 dv2 e2 hok
      rw [hpv]
      by_cases hvalid : K.isValid (K.evaluate e2 c2).1 = true <;>
        simp [QgsProperty.propertyValue, QgsProperty.prepare, hactive, htype, hok, hvalid]
  · intro e hunprepared hok
    by_cases hvalid : K.isValid (K.evaluate e c).1 = true <;>
      simp [QgsProperty.propertyValue, QgsProperty.prepare, hactive, htype, hunprepared, hok,
        hvalid]
  · intro hprepared
    by_cases hvalid : K.isValid (K.evaluate p.expression c).1 = true <;>
      simp [QgsProperty.propertyValue, hactive, htype, hprepared, hvalid]

/-- C6 at a concrete input: the expression `pop` against a context without a
column `pop` fails to prepare and yields the default; the Property stays
unprepared, and the next call, against a context that has the column, prepares
and evaluates to `5`. -/
theorem propertyValue_expression_witness :
    popExpression.active = true
      ∧ popExpression.type = ExpressionBasedProperty
      ∧ QgsProperty.propertyValue Sample popExpression nameContext (SampleVariant.int 0)
          = (SampleVariant.int 0, false,
              { popExpression with expression := ⟨"pop", -1⟩, expressionReferencedCols := ∅,
                                   expressionPrepared := false })
      ∧ (QgsProperty.propertyValue Sample
            (QgsProperty.propertyValue Sample popExpression nameContext
              (SampleVariant.int 0)).2.2 popContext (SampleVariant.int 0)).1
          = SampleVariant.int 5 :=
  ⟨rfl, rfl,
    ((propertyValue_expression Sample popExpression nameContext (SampleVariant.int 0) rfl rfl).1
      ⟨"pop", -1⟩ rfl rfl).1,
    rfl⟩

/-! ## Conversion to a transformer -/

/-- C7: `convertToTransformer()` returns false and leaves the backing record as
it was whenever the source is not ExpressionBound, or a transformer is already
attached, or the factory cannot decompose the expression text. -/
theorem convertToTransformer_noop (K : Collab) (d : QgsPropertyPrivate K)
    (h : d.type ≠ ExpressionBasedProperty ∨ d.transformer ≠ none
          ∨ K.fromExpression d.expressionString = none) :
    QgsProperty.convertToTransformer K d = (false, d) := by
  unfold QgsProperty.convertToTransformer
  by_cases htype : d.type = ExpressionBasedProperty
  · rcases htr : d.transformer with _ | t
    · rcases h with h | h | h
      · exact absurd htype h
      · exact absurd htr h
      · simp [htype, h]
    · simp [htype]
  · simp [htype]

/-- C7 at a concrete input: the FieldBound Property `pop` is left as it was. -/
theorem convertToTransformer_noop_witness :
    (popField.type ≠ ExpressionBasedProperty ∨ popField.transformer ≠ none
        ∨ Sample.fromExpression popField.expressionString = none)
      ∧ QgsProperty.convertToTransformer Sample popField = (false, popField) :=
  ⟨Or.inl (by decide), convertToTransformer_noop Sample popField (Or.inl (by decide))⟩

/-- C8: for an ExpressionBound Property with no transformer whose expression
text the factory decomposes into `(t, b, f)`, `convertToTransformer()` returns
true; afterwards the transformer is `t` and the active flag is unchanged; when
`f` is non-empty the source is FieldBound with field `f` and an unresolved
index; when `f` is empty the source is ExpressionBound with text `b`, a fresh
expression object for `b`, and the prepared flag cleared. -/
theorem convertToTransformer_success (K : Collab) (d : QgsPropertyPrivate K)
    (t : K.QgsPropertyTransformer) (b f : String)
    (htype : d.type = ExpressionBasedProperty) (hnone : d.transformer = none)
    (hdecompose : K.fromExpression d.expressionString = some (t, b, f)) :
    (QgsProperty.convertToTransformer K d).1 = true
      ∧ (QgsProperty.convertToTransformer K d).2.transformer = some t
      ∧ (QgsProperty.convertToTransformer K d).2.active = d.active
      ∧ (f ≠ "" →
          QgsProperty.propertyType K (QgsProperty.convertToTransformer K d).2 = FieldBasedProperty
            ∧ QgsProperty.field K (QgsProperty.convertToTransformer K d).2 = f
            ∧ (QgsProperty.convertToTransformer K d).2.cachedFieldIdx = -1)
      ∧ (f = "" →
          QgsProperty.propertyType K (QgsProperty.convertToTransformer K d).2
              = ExpressionBasedProperty
            ∧ QgsProperty.expressionString K (QgsProperty.convertToTransformer K d).2 = b
            ∧ (QgsProperty.convertToTransformer K d).2.expression = K.mkExpression b
            ∧ (QgsProperty.convertToTransformer K d).2.expressionPrepared = false) := by
  by_cases hf : f = ""
  · have hc : QgsProperty.convertToTransformer K d
        = (true, QgsProperty.setExpressionString K { d with transformer := some t } b) := by
      simp [QgsProperty.convertToTransformer, htype, hnone, hdecompose, hf]
    rw [hc]
    refine ⟨rfl, rfl, rfl, fun h => absurd hf h, fun _ => ⟨rfl, ?_, rfl, rfl⟩⟩
    simp [QgsProperty.expressionString, QgsProperty.setExpressionString]
  · have hc : QgsProperty.convertToTransformer K d
        = (true, QgsProperty.setField K { d with transformer := some t } f) := by
      simp [QgsProperty.convertToTransformer, htype, hnone, hdecompose, hf]
    rw [hc]
    refine ⟨rfl, rfl, rfl, fun _ => ⟨rfl, ?_, rfl⟩, fun h => absurd h hf⟩
    simp [QgsProperty.field, QgsProperty.setField]

/-- C8 at concrete inputs: `pop + 1` becomes the field `pop` with the offset-1
transformer. -/
theorem convertToTransformer_success_witness :
    (QgsProperty.fromExpression Sample "pop + 1" true).type = ExpressionBasedProperty
      ∧ (QgsProperty.fromExpression Sample "pop + 1" true).transformer = none
      ∧ Sample.fromExpression (QgsProperty.fromExpression Sample "pop + 1" true).expressionString
          = some (⟨1⟩, "", "pop")
      ∧ (QgsProperty.convertToTransformer Sample
            (QgsProperty.fromExpression Sample "pop + 1" true)).2.transformer = some ⟨1⟩
      ∧ QgsProperty.field Sample (QgsProperty.convertToTransformer Sample
            (QgsProperty.fromExpression Sample "pop + 1" true)).2 = "pop" :=
  ⟨rfl, rfl, rfl,
    (convertToTransformer_success Sample (QgsProperty.fromExpression Sample "pop + 1" true)
      ⟨1⟩ "" "pop" rfl rfl rfl).2.1,
    ((convertToTransformer_success Sample (QgsProperty.fromExpression Sample "pop + 1" true)
      ⟨1⟩ "" "pop" rfl rfl rfl).2.2.2.1 (by decide)).2.1⟩

/-! ## Setters and accessors -/

/-- C9: after a source setter exactly one variant shows through the accessors.
After `setStaticValue(v)` the type is Static, `staticValue()` is `v`, `field()`
and `expressionString()` are empty; after `setField(n)` the type is FieldBound,
`field()` is `n`, `staticValue()` is the undefined value and
`expressionString()` is empty; after `setExpressionString(t)` the type is
ExpressionBound, `expressionString()` is `t`, `staticValue()` is the undefined
value and `field()` is empty. -/
theorem setter_selects_one_variant (K : Collab) (p : QgsPropertyPrivate K)
    (v : K.QVariant) (n t : String) :
    (QgsProperty.propertyType K (QgsProperty.setStaticValue K p v) = StaticProperty
        ∧ QgsProperty.staticValue K (QgsProperty.setStaticValue K p v) = v
        ∧ QgsProperty.field K (QgsProperty.setStaticValue K p v) = ""
        ∧ QgsProperty.expressionString K (QgsProperty.setStaticValue K p v) = "")
      ∧ (QgsProperty.propertyType K (QgsProperty.setField K p n) = FieldBasedProperty
        ∧ QgsProperty.field K (QgsProperty.setField K p n) = n
        ∧ QgsProperty.staticValue K (QgsProperty.setField K p n) = K.null
        ∧ QgsProperty.expressionString K (QgsProperty.setField K p n) = "")
      ∧ (QgsProperty.propertyType K (QgsProperty.setExpressionString K p t)
            = ExpressionBasedProperty
        ∧ QgsProperty.expressionString K (QgsProperty.setExpressionString K p t) = t
        ∧ QgsProperty.staticValue K (QgsProperty.setExpressionString K p t) = K.null
        ∧ QgsProperty.field K (QgsProperty.setExpressionString K p t) = "") := by
  simp [QgsProperty.propertyType, QgsProperty.staticValue, QgsProperty.field,
    QgsProperty.expressionString, QgsProperty.setStaticValue, QgsProperty.setField,
    QgsProperty.setExpressionString]

/-- C10: `setActive(b)` changes only the active flag: type tag, transformer,
payloads and cached state are as before; afterwards `isActive()` is `b` and
"the source is not Invalid", so it is false for every Invalid Property, also
after `setActive(true)`. -/
theorem setActive_sets_only_the_flag (K : Collab) (p : QgsPropertyPrivate K) (b : Bool) :
    (QgsProperty.setActive K p b).active = b
      ∧ (QgsProperty.setActive K p b).type = p.type
      ∧ (QgsProperty.setActive K p b).transformer = p.transformer
      ∧ (QgsProperty.setActive K p b).staticValue = p.staticValue
      ∧ (QgsProperty.setActive K p b).fieldName = p.fieldName
      ∧ (QgsProperty.setActive K p b).cachedFieldIdx = p.cachedFieldIdx
      ∧ (QgsProperty.setActive K p b).expressionString = p.expressionString
      ∧ (QgsProperty.setActive K p b).expressionPrepared = p.expressionPrepared
      ∧ (QgsProperty.setActive K p b).expression = p.expression
      ∧ (QgsProperty.setActive K p b).expressionReferencedCols = p.expressionReferencedCols
      ∧ QgsProperty.isActive K (QgsProperty.setActive K p b)
          = (b && decide (p.type ≠ InvalidProperty))
      ∧ (p.type = InvalidProperty →
          QgsProperty.isActive K (QgsProperty.setActive K p true) = false) := by
  refine ⟨rfl, rfl, rfl, rfl, rfl, rfl, rfl, rfl, rfl, rfl, ?_, ?_⟩
  · simp [QgsProperty.isActive, QgsProperty.setActive, Bool.and_comm]
  · intro h
    simp [QgsProperty.isActive, QgsProperty.setActive, h]


/-! ## Persistence -/

/-- Reading back the attribute that was just stored. -/
theorem lookupAttribute_storeAttribute_same (l : List (String × String)) (n v dflt : String) :
    lookupAttribute (storeAttribute l n v) n dflt = v := by
  induction l with
  | nil => simp [storeAttribute, lookupAttribute]
  | cons kv rest ih =>
    rcases kv with ⟨k, w⟩
    by_cases hk : k = n <;> simp [storeAttribute, lookupAttribute, hk, ih]

/-- Storing an attribute does not change the lookup of another one. -/
theorem lookupAttribute_storeAttribute_other (l : List (String × String)) (n m v dflt : String)
    (hne : n ≠ m) :
    lookupAttribute (storeAttribute l n v) m dflt = lookupAttribute l m dflt := by
  induction l with
  | nil => simp [storeAttribute, lookupAttribute, hne]
  | cons kv rest ih =>
    rcases kv with ⟨k, w⟩
    by_cases hk : k = n
    · subst hk
      simp [storeAttribute, lookupAttribute, hne]
    · by_cases hm : k = m
      · subst hm
        simp [storeAttribute, lookupAttribute, hk]
      · simp [storeAttribute, lookupAttribute, hk, hm, ih]

/-- The attribute just set on an element. -/
theorem attributeOr_setAttribute_same (e : QDomElement) (n v dflt : String) :
    (e.setAttribute n v).attributeOr n dflt = v := by
  simp [QDomElement.attributeOr, QDomElement.setAttribute, QDomElement.attributes,
    lookupAttribute_storeAttribute_same]

/-- Setting an attribute leaves the other attributes of an element alone. -/
theorem attributeOr_setAttribute_other (e : QDomElement) (n m v dflt : String) (hne : n ≠ m) :
    (e.setAttribute n v).attributeOr m dflt = e.attributeOr m dflt := by
  simp [QDomElement.attributeOr, QDomElement.setAttribute, QDomElement.attributes,
    lookupAttribute_storeAttribute_other _ _ _ _ _ hne]

/-- Appending a child leaves the attributes of an element alone. -/
theorem attributeOr_appendChild (e child : QDomElement) (m dflt : String) :
    (e.appendChild child).attributeOr m dflt = e.attributeOr m dflt := by
  simp [QDomElement.attributeOr, QDomElement.appendChild, QDomElement.attributes]

/-- Setting an attribute leaves the descendants of an element alone. -/
theorem elementsByTagName_setAttribute (e : QDomElement) (n v tag : String) :
    (e.setAttribute n v).elementsByTagName tag = e.elementsByTagName tag := by
  cases e
  simp [QDomElement.setAttribute, QDomElement.elementsByTagName, QDomElement.children]


/-- The four type tags and the two texts of the active flag read back as
written. -/
theorem toInt_of_written :
    QString.toInt (QString.number InvalidProperty) = InvalidProperty
      ∧ QString.toInt (QString.number StaticProperty) = StaticProperty
      ∧ QString.toInt (QString.number FieldBasedProperty) = FieldBasedProperty
      ∧ QString.toInt (QString.number ExpressionBasedProperty) = ExpressionBasedProperty
      ∧ QString.toInt "0" = 0 ∧ QString.toInt "1" = 1 := by
  decide

/-- The tag name of a constructed element. -/
theorem tagName_mk (t : String) (a : List (String × String)) (c : QDomNodeList) :
    (QDomElement.mk t a c).tagName = t := rfl

/-- The attributes of a constructed element. -/
theorem attributes_mk (t : String) (a : List (String × String)) (c : QDomNodeList) :
    (QDomElement.mk t a c).attributes = a := rfl

/-- The children of a constructed element. -/
theorem children_mk (t : String) (a : List (String × String)) (c : QDomNodeList) :
    (QDomElement.mk t a c).children = c := rfl

/-- The attribute lookup on a constructed element. -/
theorem attributeOr_mk (t n dflt : String) (a : List (String × String)) (c : QDomNodeList) :
    (QDomElement.mk t a c).attributeOr n dflt = lookupAttribute a n dflt := rfl

/-- The descendants of an element with a single child. -/
theorem elementsByTagName_single_child (t tag : String) (a : List (String × String))
    (w : QDomElement) :
    (QDomElement.mk t a (QDomNodeList.cons w QDomNodeList.nil)).elementsByTagName tag
      = (if w.tagName = tag then [w] else []) ++ w.elementsByTagName tag := by
  simp [QDomElement.elementsByTagName, QDomNodeList.preorder]

/-- An element without children has no descendants. -/
theorem elementsByTagName_no_child (t tag : String) (a : List (String × String)) :
    (QDomElement.mk t a QDomNodeList.nil).elementsByTagName tag = [] := by
  simp [QDomElement.elementsByTagName, QDomNodeList.preorder]

/-- C2, on the code: the active FieldBound Property with the empty field name
does not survive the round trip: `readXml` forces the active flag to false on
an empty field name, so the Property read back is not `==` to the one
written. -/
theorem roundtrip_empty_field_counterexample :
    (QgsProperty.fromField Sample "" true).type = FieldBasedProperty
      ∧ (QgsProperty.fromField Sample "" true).active = true
      ∧ (QgsProperty.fromField Sample "" true).transformer = none
      ∧ (QgsProperty.readXml Sample (QgsProperty.defaultConstructed Sample)
          (QgsProperty.writeXml Sample (QgsProperty.fromField Sample "" true)
            (QDomElement.mk "prop" [] QDomNodeList.nil)).2).2.active = false
      ∧ QgsProperty.operatorEq Sample
          (QgsProperty.readXml Sample (QgsProperty.defaultConstructed Sample)
            (QgsProperty.writeXml Sample (QgsProperty.fromField Sample "" true)
              (QDomElement.mk "prop" [] QDomNodeList.nil)).2).2
          (QgsProperty.fromField Sample "" true) = false := by
  refine ⟨rfl, rfl, rfl, ?_, ?_⟩ <;> decide

/-- C2, amended: writing a Property `p` of one of the four variants with
`writeXml` to a fresh element and reading that element with `readXml` into a
default-constructed Property succeeds and yields a Property that is `==` to
`p`, with either value of the active flag and with or without a transformer,
provided that
* an active FieldBound `p` has a non-empty field name and an active
  ExpressionBound `p` a non-empty expression text;
* the value of a Static `p` compares equal to the value rebuilt from its text
  and type name (`StaticValueRoundTrips`);
* an attached transformer honours its own persistence contract
  (`TransformerRoundTrips`). -/
theorem writeXml_readXml_roundtrip (K : Collab) (p : QgsPropertyPrivate K) (tag : String)
    (hvariant : p.type = InvalidProperty ∨ p.type = StaticProperty
      ∨ p.type = FieldBasedProperty ∨ p.type = ExpressionBasedProperty)
    (hfield : p.type = FieldBasedProperty → p.active = true → p.fieldName ≠ "")
    (hexpression : p.type = ExpressionBasedProperty → p.active = true → p.expressionString ≠ "")
    (hstatic : p.type = StaticProperty → StaticValueRoundTrips K p.staticValue)
    (htransformer : ∀ t, p.transformer = some t → TransformerRoundTrips K t) :
    (QgsProperty.writeXml K p (QDomElement.mk tag [] QDomNodeList.nil)).1 = true
      ∧ (QgsProperty.readXml K (QgsProperty.defaultConstructed K)
          (QgsProperty.writeXml K p (QDomElement.mk tag [] QDomNodeList.nil)).2).1 = true
      ∧ QgsProperty.operatorEq K
          (QgsProperty.readXml K (QgsProperty.defaultConstructed K)
            (QgsProperty.writeXml K p (QDomElement.mk tag [] QDomNodeList.nil)).2).2 p = true := by
  obtain ⟨t0, t1, t2, t3, a0, a1⟩ := toInt_of_written
  have hs : p.type = StaticProperty →
      K.variantEq (K.convert (K.ofString (K.toString p.staticValue)) (K.typeName p.staticValue))
        p.staticValue = true := hstatic
  rcases htr : p.transformer with _ | t
  · rcases hvariant with h | h | h | h <;> cases ha : p.active <;>
      simp [QgsProperty.writeXml, QgsProperty.readXml, QgsProperty.operatorEq, htr, h, ha,
        QDomElement.setAttribute, attributeOr_mk, tagName_mk, attributes_mk,
        children_mk, elementsByTagName_no_child, storeAttribute, lookupAttribute,
        t0, t1, t2, t3, a0, a1, hs, hfield, hexpression]
  · obtain ⟨hw, htag, created, hcreate, hread, hrender⟩ := htransformer t htr
    rcases hwx : K.writeXml t (QgsProperty.transformerElement K t) with ⟨b, w⟩
    rw [hwx] at hw htag hcreate hread hrender
    simp only at hw htag hcreate hread hrender
    subst hw
    rcases hrx : K.readXml created w with ⟨b2, restored⟩
    rw [hrx] at hread hrender
    simp only at hread hrender
    subst hread
    rcases hvariant with h | h | h | h <;> cases ha : p.active <;>
      simp [QgsProperty.writeXml, QgsProperty.readXml, QgsProperty.operatorEq, htr, h, ha,
        QDomElement.setAttribute, attributeOr_mk, tagName_mk, attributes_mk,
        children_mk, elementsByTagName_single_child,
        QDomElement.appendChild, QDomNodeList.append, storeAttribute, lookupAttribute,
        t0, t1, t2, t3, a0, a1, hs, hfield, hexpression, hwx, htag, hcreate, hrx, hrender]


/-- C2, amended, at a concrete input: the active Static Property holding `42`
with the offset-3 transformer attached is read back as written. -/
theorem writeXml_readXml_roundtrip_witness :
    staticWithTransformer.type = StaticProperty
      ∧ staticWithTransformer.transformer = some ⟨3⟩
      ∧ StaticValueRoundTrips Sample staticWithTransformer.staticValue
      ∧ TransformerRoundTrips Sample ⟨3⟩
      ∧ QgsProperty.operatorEq Sample
          (QgsProperty.readXml Sample (QgsProperty.defaultConstructed Sample)
            (QgsProperty.writeXml Sample staticWithTransformer
              (QDomElement.mk "prop" [] QDomNodeList.nil)).2).2 staticWithTransformer = true :=
  have hvalue : StaticValueRoundTrips Sample staticWithTransformer.staticValue := by
    unfold StaticValueRoundTrips
    decide
  have htransformer : TransformerRoundTrips Sample ⟨3⟩ :=
    ⟨rfl, rfl, ⟨0⟩, rfl, rfl, rfl⟩
  ⟨rfl, rfl, hvalue, htransformer,
    (writeXml_readXml_roundtrip Sample staticWithTransformer "prop" (Or.inr (Or.inl rfl))
      (fun h => absurd h (by decide)) (fun h => absurd h (by decide)) (fun _ => hvalue)
      (fun t ht => by
        have ht3 : t = ⟨3⟩ := (Option.some.inj ht).symm
        rw [ht3]
        exact htransformer)).2.2⟩


/-! ## Preparation and referenced fields -/

/-- C12: `prepare(c)` returns true for every inactive, Static, Invalid or
FieldBound Property.  For an active FieldBound Property the cached index
becomes the schema lookup of the field name.  For an active ExpressionBound
Property `prepare(c)` returns what the expression's own `prepare(c)` returns;
when that succeeds the prepared flag is set and the referenced-column set is
the `referencedColumns()` of the prepared expression, when it fails the
prepared flag is false and the referenced-column set is empty. -/
theorem prepare_result (K : Collab) (p : QgsPropertyPrivate K)
    (c : QgsExpressionContext K.QVariant) :
    ((p.active = false ∨ p.type = StaticProperty ∨ p.type = InvalidProperty
          ∨ p.type = FieldBasedProperty) →
        (QgsProperty.prepare K p c).1 = true)
      ∧ (p.active = true → p.type = FieldBasedProperty →
          (QgsProperty.prepare K p c).2.cachedFieldIdx = c.fields.lookupField p.fieldName)
      ∧ (p.active = true → p.type = ExpressionBasedProperty →
          (QgsProperty.prepare K p c).1 = (K.prepare p.expression c).1
            ∧ ((K.prepare p.expression c).1 = true →
                (QgsProperty.prepare K p c).2.expressionPrepared = true
                  ∧ (QgsProperty.prepare K p c).2.expressionReferencedCols
                      = K.referencedColumns (K.prepare p.expression c).2)
            ∧ ((K.prepare p.expression c).1 = false →
                (QgsProperty.prepare K p c).2.expressionPrepared = false
                  ∧ (QgsProperty.prepare K p c).2.expressionReferencedCols = ∅)) := by
  refine ⟨?_, ?_, ?_⟩
  · intro h
    unfold QgsProperty.prepare
    rcases h with h | h | h | h <;> split_ifs <;> first | rfl | simp_all
  · intro ha ht
    rw [prepare_field K p c ha ht]
  · intro ha ht
    rw [prepare_expression K p c ha ht]
    by_cases hp : (K.prepare p.expression c).1 = true
    · simp [hp]
    · simp [hp]

/-- C13: with an expression whose `prepare`, repeated on the prepared
expression object against the same context, gives the same outcome and the
same referenced columns as the first time, `prepare(c)` called twice in a row
on an ExpressionBound Property leaves the same return value, prepared flag and
referenced-column set as `prepare(c)` called once. -/
theorem prepare_idempotent (K : Collab) (p : QgsPropertyPrivate K)
    (c : QgsExpressionContext K.QVariant)
    (htype : p.type = ExpressionBasedProperty)
    (hdeterministic :
      (K.prepare (K.prepare p.expression c).2 c).1 = (K.prepare p.expression c).1
        ∧ K.referencedColumns (K.prepare (K.prepare p.expression c).2 c).2
            = K.referencedColumns (K.prepare p.expression c).2) :
    (QgsProperty.prepare K (QgsProperty.prepare K p c).2 c).1 = (QgsProperty.prepare K p c).1
      ∧ (QgsProperty.prepare K (QgsProperty.prepare K p c).2 c).2.expressionPrepared
          = (QgsProperty.prepare K p c).2.expressionPrepared
      ∧ (QgsProperty.prepare K (QgsProperty.prepare K p c).2 c).2.expressionReferencedCols
          = (QgsProperty.prepare K p c).2.expressionReferencedCols := by
  obtain ⟨hd1, hd2⟩ := hdeterministic
  by_cases ha : p.active = true
  · by_cases hp : (K.prepare p.expression c).1 = true
    · have h1 : QgsProperty.prepare K p c
          = (true, { p with
                      expression := (K.prepare p.expression c).2
                      expressionPrepared := true
                      expressionReferencedCols :=
                        K.referencedColumns (K.prepare p.expression c).2 }) := by
        rw [prepare_expression K p c ha htype]
        simp [hp]
      have h2 := prepare_expression K
        { p with
          expression := (K.prepare p.expression c).2
          expressionPrepared := true
          expressionReferencedCols := K.referencedColumns (K.prepare p.expression c).2 }
        c ha htype
      rw [h1, h2]
      simp [hd1, hd2, hp]
    · have h1 : QgsProperty.prepare K p c
          = (false, { p with
                       expression := (K.prepare p.expression c).2
                       expressionReferencedCols := ∅
                       expressionPrepared := false }) := by
        rw [prepare_expression K p c ha htype]
        simp [hp]
      have h2 := prepare_expression K
        { p with
          expression := (K.prepare p.expression c).2
          expressionReferencedCols := ∅
          expressionPrepared := false }
        c ha htype
      rw [h1, h2]
      simp [hd1, hp]
  · have hp : QgsProperty.prepare K p c = (true, p) := by
      simp [QgsProperty.prepare, ha]
    rw [hp, hp]
    exact ⟨rfl, rfl, rfl⟩

/-- C13 at a concrete input: the expression `pop` prepared twice against a
context that has the column. -/
theorem prepare_idempotent_witness :
    popExpression.type = ExpressionBasedProperty
      ∧ (QgsProperty.prepare Sample (QgsProperty.prepare Sample popExpression popContext).2
            popContext).2.expressionReferencedCols
          = (QgsProperty.prepare Sample popExpression popContext).2.expressionReferencedCols
      ∧ (QgsProperty.prepare Sample popExpression popContext).2.expressionReferencedCols
          = {"pop"} :=
  ⟨rfl, (prepare_idempotent Sample popExpression popContext rfl ⟨rfl, rfl⟩).2.2, rfl⟩

/-- C14: `referencedFields(c)` is empty for every inactive, Static or Invalid
Property, and is the set holding the field name (empty when the name is empty)
for an active FieldBound Property; in these cases, and for an active
ExpressionBound Property that is already prepared, whose cached
referenced-column set it returns, the backing record is left as it was.  For
an active ExpressionBound Property that is not yet prepared it prepares the
Property against `c`: when the expression's `prepare` succeeds it returns the
referenced columns of the prepared expression and leaves the Property prepared,
holding the prepared expression and these columns; when it fails it returns
the empty set and leaves the Property unprepared, with an empty
referenced-column set. -/
theorem referencedFields_result (K : Collab) (p : QgsPropertyPrivate K)
    (c : QgsExpressionContext K.QVariant) :
    ((p.active = false ∨ p.type = StaticProperty ∨ p.type = InvalidProperty) →
        QgsProperty.referencedFields K p c = (∅, p))
      ∧ (p.active = true → p.type = FieldBasedProperty →
          QgsProperty.referencedFields K p c
            = (if p.fieldName = "" then ∅ else {p.fieldName}, p))
      ∧ (p.active = true → p.type = ExpressionBasedProperty → p.expressionPrepared = true →
          QgsProperty.referencedFields K p c = (p.expressionReferencedCols, p))
      ∧ (p.active = true → p.type = ExpressionBasedProperty → p.expressionPrepared = false →
          (K.prepare p.expression c).1 = true →
          QgsProperty.referencedFields K p c
            = (K.referencedColumns (K.prepare p.expression c).2,
                { p with
                  expression := (K.prepare p.expression c).2
                  expressionPrepared := true
                  expressionReferencedCols :=
                    K.referencedColumns (K.prepare p.expression c).2 }))
      ∧ (p.active = true → p.type = ExpressionBasedProperty → p.expressionPrepared = false →
          (K.prepare p.expression c).1 = false →
          QgsProperty.referencedFields K p c
            = (∅,
                { p with
                  expression := (K.prepare p.expression c).2
                  expressionReferencedCols := ∅
                  expressionPrepared := false })) := by
  refine ⟨?_, ?_, ?_, ?_, ?_⟩
  · intro h
    unfold QgsProperty.referencedFields
    rcases h with h | h | h
    · simp [h]
    · split_ifs <;> first | rfl | simp_all
    · split_ifs <;> first | rfl | simp_all
  · intro ha ht
    by_cases hn : p.fieldName = "" <;> simp [QgsProperty.referencedFields, ha, ht, hn]
  · intro ha ht hp
    simp [QgsProperty.referencedFields, ha, ht, hp]
  · intro ha ht hp hs
    unfold QgsProperty.referencedFields
    rw [prepare_expression K p c ha ht]
    simp [ha, ht, hp, hs]
  · intro ha ht hp hs
    unfold QgsProperty.referencedFields
    rw [prepare_expression K p c ha ht]
    simp [ha, ht, hp, hs]

/-- C14 at a concrete input: the unprepared expression `pop` against a context
that has the column returns the set holding `pop` and is prepared afterwards;
against a context without the column it returns the empty set and stays
unprepared. -/
theorem referencedFields_result_witness :
    popExpression.expressionPrepared = false
      ∧ (QgsProperty.referencedFields Sample popExpression popContext).1 = {"pop"}
      ∧ (QgsProperty.referencedFields Sample popExpression popContext).2.expressionPrepared
          = true
      ∧ (QgsProperty.referencedFields Sample popExpression
          popContext).2.expressionReferencedCols = {"pop"}
      ∧ QgsProperty.referencedFields Sample popExpression nameContext
          = (∅, { popExpression with
                   expression := ⟨"pop", -1⟩
                   expressionReferencedCols := ∅
                   expressionPrepared := false }) :=
  ⟨rfl, rfl, rfl, rfl,
    (referencedFields_result Sample popExpression nameContext).2.2.2.2 rfl rfl rfl rfl⟩

/-! ## Equality -/

/-- `prepare` leaves everything `operator==` reads as it was. -/
theorem prepare_sameSource (K : Collab) (d : QgsPropertyPrivate K)
    (c : QgsExpressionContext K.QVariant) :
    SameSource K (QgsProperty.prepare K d c).2 d := by
  unfold QgsProperty.prepare SameSource
  split_ifs
  all_goals try exact ⟨rfl, rfl, rfl, rfl, rfl, rfl⟩
  rcases K.prepare d.expression c with ⟨b, e⟩
  cases b <;> exact ⟨rfl, rfl, rfl, rfl, rfl, rfl⟩

/-- `propertyValue` leaves everything `operator==` reads as it was. -/
theorem propertyValue_sameSource (K : Collab) (d : QgsPropertyPrivate K)
    (c : QgsExpressionContext K.QVariant) (dv : K.QVariant) :
    SameSource K (QgsProperty.propertyValue K d c dv).2.2 d := by
  have hp := prepare_sameSource K d c
  unfold QgsProperty.propertyValue
  unfold SameSource at hp ⊢
  split_ifs
  all_goals try exact ⟨rfl, rfl, rfl, rfl, rfl, rfl⟩
  all_goals try (simp only []; split_ifs <;> exact ⟨rfl, rfl, rfl, rfl, rfl, rfl⟩)
  · rcases h : QgsProperty.prepare K d c with ⟨b, d1⟩
    rw [h] at hp
    cases b
    · exact hp
    · simp only []
      split_ifs <;> exact hp

/-- `referencedFields` leaves everything `operator==` reads as it was. -/
theorem referencedFields_sameSource (K : Collab) (d : QgsPropertyPrivate K)
    (c : QgsExpressionContext K.QVariant) :
    SameSource K (QgsProperty.referencedFields K d c).2 d := by
  have hp := prepare_sameSource K d c
  unfold QgsProperty.referencedFields
  unfold SameSource at hp ⊢
  split_ifs
  all_goals try exact ⟨rfl, rfl, rfl, rfl, rfl, rfl⟩
  · rcases h : QgsProperty.prepare K d c with ⟨b, d1⟩
    rw [h] at hp
    cases b <;> exact hp

/-- The comparison reads only the fields of `SameSource`, on either side. -/
theorem operatorEq_of_sameSource (K : Collab) (a b q : QgsPropertyPrivate K)
    (h : SameSource K a b) :
    QgsProperty.operatorEq K a q = QgsProperty.operatorEq K b q
      ∧ QgsProperty.operatorEq K q a = QgsProperty.operatorEq K q b := by
  obtain ⟨h1, h2, h3, h4, h5, h6⟩ := h
  unfold QgsProperty.operatorEq
  rw [h1, h2, h3, h4, h5, h6]
  exact ⟨rfl, rfl⟩

/-- The comparison spelled out. -/
theorem operatorEq_iff (K : Collab) (p q : QgsPropertyPrivate K) :
    QgsProperty.operatorEq K p q = true ↔
      p.active = q.active ∧ p.type = q.type
        ∧ (p.type = StaticProperty → K.variantEq p.staticValue q.staticValue = true)
        ∧ (p.type = FieldBasedProperty → p.fieldName = q.fieldName)
        ∧ (p.type = ExpressionBasedProperty → p.expressionString = q.expressionString)
        ∧ ((p.transformer = none ∧ q.transformer = none)
            ∨ ∃ t u, p.transformer = some t ∧ q.transformer = some u
                ∧ K.toExpression t "" = K.toExpression u "") := by
  unfold QgsProperty.operatorEq
  rcases hp : p.transformer with _ | t <;> rcases hq : q.transformer with _ | u <;>
    simp [imp_iff_not_or, and_assoc]


/-- C11, on the code: the Static Property holding NaN is not `==` to itself,
because the comparison of its static value is the variant's own `==`, under
which NaN is unequal to NaN; `prepare(c)` leaves the Property as it was, and
the Property after the call is not `==` to the Property before. -/
theorem operatorEq_nan_counterexample :
    nanProperty.type = StaticProperty
      ∧ nanProperty.active = true
      ∧ NumberSample.variantEq nanProperty.staticValue nanProperty.staticValue = false
      ∧ (QgsProperty.prepare NumberSample nanProperty numberContext).2 = nanProperty
      ∧ QgsProperty.operatorEq NumberSample
          (QgsProperty.prepare NumberSample nanProperty numberContext).2 nanProperty = false
      ∧ QgsProperty.operatorEq NumberSample
          (QgsProperty.propertyValue NumberSample nanProperty numberContext
            NumberVariant.invalid).2.2 nanProperty = false
      ∧ QgsProperty.operatorEq NumberSample
          (QgsProperty.referencedFields NumberSample nanProperty numberContext).2 nanProperty
          = false :=
  ⟨rfl, rfl, rfl, rfl, rfl, rfl, rfl⟩

/-- C11, amended: `operator==` holds exactly when the active flags are equal,
the type tags are equal, the payload of that tag is equal (static value under
the variant's own `==`, field name, expression text) and the transformers are
both absent or both present with equal `toExpression("")` output.  The cached
state (field index, prepared flag, expression object, referenced columns) never
affects it: for every `p`, `q` and context `c`, `p` after `prepare(c)`,
`propertyValue(c, d)` or `referencedFields(c)` compares with `q`, on either
side, as `p` before the call does.  Hence `p` after the call is `==` to `p`
before the call exactly when `p` is `==` to itself, which holds for every `p`
that is not Static and for every Static `p` whose value compares equal to
itself. -/
theorem operatorEq_ignores_cache (K : Collab) (p q : QgsPropertyPrivate K)
    (c : QgsExpressionContext K.QVariant) (dv : K.QVariant) :
    (QgsProperty.operatorEq K p q = true ↔
        p.active = q.active ∧ p.type = q.type
          ∧ (p.type = StaticProperty → K.variantEq p.staticValue q.staticValue = true)
          ∧ (p.type = FieldBasedProperty → p.fieldName = q.fieldName)
          ∧ (p.type = ExpressionBasedProperty → p.expressionString = q.expressionString)
          ∧ ((p.transformer = none ∧ q.transformer = none)
              ∨ ∃ t u, p.transformer = some t ∧ q.transformer = some u
                  ∧ K.toExpression t "" = K.toExpression u ""))
      ∧ (∀ idx prepared e cols,
          QgsProperty.operatorEq K
              { p with cachedFieldIdx := idx, expressionPrepared := prepared, expression := e,
                       expressionReferencedCols := cols } q
            = QgsProperty.operatorEq K p q
          ∧ QgsProperty.operatorEq K q
              { p with cachedFieldIdx := idx, expressionPrepared := prepared, expression := e,
                       expressionReferencedCols := cols }
            = QgsProperty.operatorEq K q p)
      ∧ (QgsProperty.operatorEq K (QgsProperty.prepare K p c).2 q = QgsProperty.operatorEq K p q
          ∧ QgsProperty.operatorEq K q (QgsProperty.prepare K p c).2
              = QgsProperty.operatorEq K q p
          ∧ QgsProperty.operatorEq K (QgsProperty.propertyValue K p c dv).2.2 q
              = QgsProperty.operatorEq K p q
          ∧ QgsProperty.operatorEq K q (QgsProperty.propertyValue K p c dv).2.2
              = QgsProperty.operatorEq K q p
          ∧ QgsProperty.operatorEq K (QgsProperty.referencedFields K p c).2 q
              = QgsProperty.operatorEq K p q
          ∧ QgsProperty.operatorEq K q (QgsProperty.referencedFields K p c).2
              = QgsProperty.operatorEq K q p)
      ∧ (QgsProperty.operatorEq K p p = true ↔
          (p.type = StaticProperty → K.variantEq p.staticValue p.staticValue = true))
      ∧ ((p.type = StaticProperty → K.variantEq p.staticValue p.staticValue = true) →
          QgsProperty.operatorEq K (QgsProperty.prepare K p c).2 p = true
            ∧ QgsProperty.operatorEq K (QgsProperty.propertyValue K p c dv).2.2 p = true
            ∧ QgsProperty.operatorEq K (QgsProperty.referencedFields K p c).2 p = true) := by
  have hself : QgsProperty.operatorEq K p p = true ↔
      (p.type = StaticProperty → K.variantEq p.staticValue p.staticValue = true) := by
    rw [operatorEq_iff]
    constructor
    · intro h
      exact h.2.2.1
    · intro hrefl
      refine ⟨rfl, rfl, hrefl, fun _ => rfl, fun _ => rfl, ?_⟩
      rcases h : p.transformer with _ | t
      · exact Or.inl ⟨rfl, rfl⟩
      · exact Or.inr ⟨t, t, rfl, rfl, rfl⟩
  refine ⟨operatorEq_iff K p q, ?_, ?_, hself, ?_⟩
  · intro idx prepared e cols
    exact operatorEq_of_sameSource K _ p q ⟨rfl, rfl, rfl, rfl, rfl, rfl⟩
  · exact ⟨(operatorEq_of_sameSource K _ p q (prepare_sameSource K p c)).1,
      (operatorEq_of_sameSource K _ p q (prepare_sameSource K p c)).2,
      (operatorEq_of_sameSource K _ p q (propertyValue_sameSource K p c dv)).1,
      (operatorEq_of_sameSource K _ p q (propertyValue_sameSource K p c dv)).2,
      (operatorEq_of_sameSource K _ p q (referencedFields_sameSource K p c)).1,
      (operatorEq_of_sameSource K _ p q (referencedFields_sameSource K p c)).2⟩
  · intro hrefl
    have hpp := hself.mpr hrefl
    refine ⟨?_, ?_, ?_⟩
    · rw [(operatorEq_of_sameSource K _ p p (prepare_sameSource K p c)).1]
      exact hpp
    · rw [(operatorEq_of_sameSource K _ p p (propertyValue_sameSource K p c dv)).1]
      exact hpp
    · rw [(operatorEq_of_sameSource K _ p p (referencedFields_sameSource K p c)).1]
      exact hpp

/-- C11, amended, at a concrete input: the FieldBound Property `pop`, prepared
against a context that resolves the field, has a different cached index and is
still `==` to the unprepared Property. -/
theorem operatorEq_ignores_cache_witness :
    (QgsProperty.prepare Sample popField popContext).2.cachedFieldIdx ≠ popField.cachedFieldIdx
      ∧ QgsProperty.operatorEq Sample (QgsProperty.prepare Sample popField popContext).2 popField
          = true :=
  ⟨by decide,
    ((operatorEq_ignores_cache Sample popField popField popContext (SampleVariant.int 0)).2.2.2.2
      (fun _ => rfl)).1⟩

/-! ## Reading a persisted element -/

/-- `readXml` always returns true. -/
theorem readXml_returns_true (K : Collab) (d : QgsPropertyPrivate K) (e : QDomElement) :
    (QgsProperty.readXml K d e).1 = true := by
  unfold QgsProperty.readXml
  simp only []
  split
  · rfl
  · split
    · rfl
    · split <;> rfl

/-- The type tag after `readXml` is the integer value of the `type` attribute. -/
theorem readXml_type (K : Collab) (d : QgsPropertyPrivate K) (e : QDomElement) :
    (QgsProperty.readXml K d e).2.type = QString.toInt (e.attributeOr "type" "0") := by
  unfold QgsProperty.readXml
  simp only []
  split
  · split_ifs <;> rfl
  · split
    · split_ifs <;> rfl
    · split <;> split_ifs <;> rfl

/-- The active flag after `readXml`: the integer value of the `active`
attribute, overridden by false for a FieldBound or ExpressionBound element
with an empty text. -/
theorem readXml_active (K : Collab) (d : QgsPropertyPrivate K) (e : QDomElement) :
    (QgsProperty.readXml K d e).2.active =
      if QString.toInt (e.attributeOr "type" "0") = FieldBasedProperty then
        (if e.attributeOr "field" "" = "" then false
         else decide (QString.toInt (e.attributeOr "active" "1") ≠ 0))
      else if QString.toInt (e.attributeOr "type" "0") = ExpressionBasedProperty then
        (if e.attributeOr "expression" "" = "" then false
         else decide (QString.toInt (e.attributeOr "active" "1") ≠ 0))
      else decide (QString.toInt (e.attributeOr "active" "1") ≠ 0) := by
  unfold QgsProperty.readXml
  simp only []
  split
  · split_ifs <;> simp_all
  · split
    · split_ifs <;> simp_all
    · split <;> split_ifs <;> simp_all

/-- The transformer after `readXml` comes from the first descendant element
named `transformer`, if any, and from nothing else. -/
theorem readXml_transformer (K : Collab) (d : QgsPropertyPrivate K) (e : QDomElement) :
    (QgsProperty.readXml K d e).2.transformer =
      match e.elementsByTagName "transformer" with
      | [] => none
      | transformerElem :: _ =>
        match K.create (QString.toInt (transformerElem.attributeOr "t" "0")) with
        | none => none
        | some created =>
          if (K.readXml created transformerElem).1 = true then
            some (K.readXml created transformerElem).2
          else none := by
  unfold QgsProperty.readXml
  simp only []
  split
  · rfl
  · split
    · rfl
    · rename_i created hcreate
      rcases hr : K.readXml created _ with ⟨b, r⟩
      cases b <;> simp


/-- C15: for an element whose `type` attribute selects FieldBound and whose
`field` attribute is missing or empty, and for an element whose `type` selects
ExpressionBound and whose `expression` attribute is missing or empty,
`readXml` returns true and leaves the Property inactive, whatever the `active`
attribute says; when the text is non-empty the active flag is the `active`
attribute (default `1`) read as an integer, non-zero meaning true. -/
theorem readXml_empty_text_inactive (K : Collab) (d : QgsPropertyPrivate K) (e : QDomElement) :
    (QString.toInt (e.attributeOr "type" "0") = FieldBasedProperty →
        e.attributeOr "field" "" = "" →
        (QgsProperty.readXml K d e).1 = true ∧ (QgsProperty.readXml K d e).2.active = false)
      ∧ (QString.toInt (e.attributeOr "type" "0") = ExpressionBasedProperty →
          e.attributeOr "expression" "" = "" →
          (QgsProperty.readXml K d e).1 = true ∧ (QgsProperty.readXml K d e).2.active = false)
      ∧ (QString.toInt (e.attributeOr "type" "0") = FieldBasedProperty →
          e.attributeOr "field" "" ≠ "" →
          (QgsProperty.readXml K d e).1 = true
            ∧ (QgsProperty.readXml K d e).2.active
                = decide (QString.toInt (e.attributeOr "active" "1") ≠ 0))
      ∧ (QString.toInt (e.attributeOr "type" "0") = ExpressionBasedProperty →
          e.attributeOr "expression" "" ≠ "" →
          (QgsProperty.readXml K d e).1 = true
            ∧ (QgsProperty.readXml K d e).2.active
                = decide (QString.toInt (e.attributeOr "active" "1") ≠ 0)) := by
  have htrue := readXml_returns_true K d e
  have hactive := readXml_active K d e
  refine ⟨?_, ?_, ?_, ?_⟩
  · intro ht hf
    refine ⟨htrue, ?_⟩
    rw [hactive]
    simp [ht, hf]
  · intro ht hf
    refine ⟨htrue, ?_⟩
    rw [hactive]
    simp [ht, hf]
  · intro ht hf
    refine ⟨htrue, ?_⟩
    rw [hactive]
    simp [ht, hf]
  · intro ht hf
    refine ⟨htrue, ?_⟩
    rw [hactive]
    simp [ht, hf]

/-- C15 at concrete inputs: a FieldBound element without a `field` attribute
and with `active` set to `1` is read as inactive; one with the field `area` and
no `active` attribute is read as active. -/
theorem readXml_empty_text_inactive_witness :
    (QgsProperty.readXml Sample (QgsProperty.defaultConstructed Sample)
        (QDomElement.mk "prop" [("active", "1"), ("type", "2")] QDomNodeList.nil)).2.active = false
      ∧ (QgsProperty.readXml Sample (QgsProperty.defaultConstructed Sample)
          (QDomElement.mk "prop" [("type", "2"), ("field", "area")] QDomNodeList.nil)).2.active
        = true :=
  ⟨((readXml_empty_text_inactive Sample (QgsProperty.defaultConstructed Sample)
      (QDomElement.mk "prop" [("active", "1"), ("type", "2")] QDomNodeList.nil)).1
        (by decide) (by decide)).2,
    (((readXml_empty_text_inactive Sample (QgsProperty.defaultConstructed Sample)
      (QDomElement.mk "prop" [("type", "2"), ("field", "area")] QDomNodeList.nil)).2.2.1
        (by decide) (by decide)).2).trans (by decide)⟩

/-- C16, on the code: an element with no `transformer` child, but with a
`transformer` element one level further down, is read with that transformer
attached: `readXml` searches all descendants, not the children only. -/
theorem readXml_nested_transformer_counterexample :
    nestedTransformerElement.children
        = QDomNodeList.cons
            (QDomElement.mk "wrapper" []
              (QDomNodeList.cons
                (QDomElement.mk "transformer" [("t", "1"), ("offset", "5")] QDomNodeList.nil)
                QDomNodeList.nil))
            QDomNodeList.nil
      ∧ (QgsProperty.readXml Sample (QgsProperty.defaultConstructed Sample)
          nestedTransformerElement).1 = true
      ∧ (QgsProperty.readXml Sample (QgsProperty.defaultConstructed Sample)
          nestedTransformerElement).2.transformer = some ⟨5⟩ :=
  ⟨rfl, rfl, rfl⟩

/-- C16, amended: after `readXml(e)` the transformer is absent when `e` has no
descendant element named `transformer`; otherwise, with `c` the first such
descendant in document order, it is absent when the type tag of `c` is unknown
to the factory, absent when the factory-created transformer fails to read its
state from `c`, and otherwise the factory-created transformer after it read
`c`.  The transformer held before never enters the result, and `readXml`
returns true in all four cases. -/
theorem readXml_transformer_first_descendant (K : Collab) (d : QgsPropertyPrivate K)
    (e : QDomElement) :
    (QgsProperty.readXml K d e).1 = true
      ∧ (QgsProperty.readXml K d e).2.transformer
          = (match e.elementsByTagName "transformer" with
             | [] => none
             | transformerElem :: _ =>
               match K.create (QString.toInt (transformerElem.attributeOr "t" "0")) with
               | none => none
               | some created =>
                 if (K.readXml created transformerElem).1 = true then
                   some (K.readXml created transformerElem).2
                 else none)
      ∧ ∀ previous, (QgsProperty.readXml K { d with transformer := previous } e).2.transformer
          = (QgsProperty.readXml K d e).2.transformer := by
  refine ⟨readXml_returns_true K d e, readXml_transformer K d e, ?_⟩
  intro previous
  rw [readXml_transformer, readXml_transformer]

/-- C17: for a non-empty field name `n` and either flag `a`, writing
`fromField(n, a)` to a fresh element and reading the element back into a
default-constructed Property succeeds and yields a Property that is `==` to
the original, FieldBound with `field() = n`, and with the active flag `a`. -/
theorem fromField_roundtrip (K : Collab) (n tag : String) (a : Bool) (hn : n ≠ "") :
    (QgsProperty.readXml K (QgsProperty.defaultConstructed K)
        (QgsProperty.writeXml K (QgsProperty.fromField K n a)
          (QDomElement.mk tag [] QDomNodeList.nil)).2).1 = true
      ∧ QgsProperty.operatorEq K
          (QgsProperty.readXml K (QgsProperty.defaultConstructed K)
            (QgsProperty.writeXml K (QgsProperty.fromField K n a)
              (QDomElement.mk tag [] QDomNodeList.nil)).2).2
          (QgsProperty.fromField K n a) = true
      ∧ QgsProperty.propertyType K
          (QgsProperty.readXml K (QgsProperty.defaultConstructed K)
            (QgsProperty.writeXml K (QgsProperty.fromField K n a)
              (QDomElement.mk tag [] QDomNodeList.nil)).2).2 = FieldBasedProperty
      ∧ QgsProperty.field K
          (QgsProperty.readXml K (QgsProperty.defaultConstructed K)
            (QgsProperty.writeXml K (QgsProperty.fromField K n a)
              (QDomElement.mk tag [] QDomNodeList.nil)).2).2 = n
      ∧ (QgsProperty.readXml K (QgsProperty.defaultConstructed K)
          (QgsProperty.writeXml K (QgsProperty.fromField K n a)
            (QDomElement.mk tag [] QDomNodeList.nil)).2).2.active = a := by
  obtain ⟨_, _, t2, _, a0, a1⟩ := toInt_of_written
  cases a <;>
    simp [QgsProperty.writeXml, QgsProperty.readXml, QgsProperty.operatorEq,
      QgsProperty.fromField, QgsProperty.setField, QgsProperty.setActive,
      QgsProperty.defaultConstructed, QgsProperty.propertyType, QgsProperty.field,
      QDomElement.setAttribute, attributeOr_mk, tagName_mk, attributes_mk,
      children_mk, elementsByTagName_no_child, storeAttribute, lookupAttribute,
      t2, a0, a1, hn]

/-- C17 at the concrete input of the claim: the field `area`. -/
theorem fromField_roundtrip_witness :
    QgsProperty.operatorEq Sample
        (QgsProperty.readXml Sample (QgsProperty.defaultConstructed Sample)
          (QgsProperty.writeXml Sample (QgsProperty.fromField Sample "area" true)
            (QDomElement.mk "prop" [] QDomNodeList.nil)).2).2
        (QgsProperty.fromField Sample "area" true) = true
      ∧ (QgsProperty.readXml Sample (QgsProperty.defaultConstructed Sample)
          (QgsProperty.writeXml Sample (QgsProperty.fromField Sample "area" true)
            (QDomElement.mk "prop" [] QDomNodeList.nil)).2).2.active = true :=
  ⟨(fromField_roundtrip Sample "area" "prop" true (by decide)).2.1,
    (fromField_roundtrip Sample "area" "prop" true (by decide)).2.2.2.2⟩


/-! ## Rendering as an expression -/

/-- C18: `asExpression()` is the fragment `f` itself when no transformer is
attached and `toExpression(f)` of the transformer otherwise, where `f` is the
quoted literal of the stored value for Static, the quoted column reference of
the field name for FieldBound, the raw expression text for ExpressionBound and
the empty string for Invalid; the active flag does not enter. -/
theorem asExpression_result (K : Collab) (Q : Quoting K) (d : QgsPropertyPrivate K) :
    (d.type = StaticProperty →
        QgsProperty.asExpression K Q d
          = d.transformer.elim (Q.quotedValue d.staticValue)
              (fun t => K.toExpression t (Q.quotedValue d.staticValue)))
      ∧ (d.type = FieldBasedProperty →
          QgsProperty.asExpression K Q d
            = d.transformer.elim (Q.quotedColumnRef d.fieldName)
                (fun t => K.toExpression t (Q.quotedColumnRef d.fieldName)))
      ∧ (d.type = ExpressionBasedProperty →
          QgsProperty.asExpression K Q d
            = d.transformer.elim d.expressionString
                (fun t => K.toExpression t d.expressionString))
      ∧ (d.type = InvalidProperty →
          QgsProperty.asExpression K Q d
            = d.transformer.elim "" (fun t => K.toExpression t ""))
      ∧ ∀ b, QgsProperty.asExpression K Q (QgsProperty.setActive K d b)
          = QgsProperty.asExpression K Q d := by
  refine ⟨?_, ?_, ?_, ?_, ?_⟩
  · intro h
    rcases ht : d.transformer with _ | t <;> simp [QgsProperty.asExpression, h, ht]
  · intro h
    rcases ht : d.transformer with _ | t <;> simp [QgsProperty.asExpression, h, ht]
  · intro h
    rcases ht : d.transformer with _ | t <;> simp [QgsProperty.asExpression, h, ht]
  · intro h
    rcases ht : d.transformer with _ | t <;> simp [QgsProperty.asExpression, h, ht]
  · intro b
    rfl

/-- C18 at the concrete input of the claim: a Static Property holding the
string `red`, with no transformer, renders as the quoted literal `'red'`. -/
theorem asExpression_result_witness :
    (QgsProperty.fromValue Sample (SampleVariant.string "red") true).transformer = none
      ∧ QgsProperty.asExpression Sample SampleQuoting
          (QgsProperty.fromValue Sample (SampleVariant.string "red") true) = "'red'" :=
  ⟨rfl,
    ((asExpression_result Sample SampleQuoting
      (QgsProperty.fromValue Sample (SampleVariant.string "red") true)).1 rfl).trans
      (by decide)⟩

/-! ## Typed evaluation -/

/-- C19: with `(v, ok)` the result of `value(c, d)`: when `ok` is false or `v`
is undefined, `valueAsInt(c, d)` is `(d, false)`; otherwise, when `v` converts
to an integer `i`, it is `(i, true)`; otherwise, when `v` converts to a double
`x`, it is `(qRound(x), true)`; otherwise `(d, false)`.  Hence, for a variant
type where the value built from an integer `n` is defined and converts back to
`n`, `fromValue(n, true).valueAsInt(c, d)` is `(n, true)` for every context and
default. -/
theorem valueAsInt_result (K : Collab) (N : NumericOps K) (p : QgsPropertyPrivate K)
    (c : QgsExpressionContext K.QVariant) (dv : Int) :
    (((QgsProperty.value K p c (N.ofInt dv)).2.1 = false
          ∨ K.isValid (QgsProperty.value K p c (N.ofInt dv)).1 = false) →
        QgsProperty.valueAsInt K N p c dv
          = (dv, false, (QgsProperty.value K p c (N.ofInt dv)).2.2))
      ∧ ((QgsProperty.value K p c (N.ofInt dv)).2.1 = true →
          K.isValid (QgsProperty.value K p c (N.ofInt dv)).1 = true →
          ((N.toInt (QgsProperty.value K p c (N.ofInt dv)).1).2 = true →
              QgsProperty.valueAsInt K N p c dv
                = ((N.toInt (QgsProperty.value K p c (N.ofInt dv)).1).1, true,
                    (QgsProperty.value K p c (N.ofInt dv)).2.2))
            ∧ ((N.toInt (QgsProperty.value K p c (N.ofInt dv)).1).2 = false →
                (N.toDouble (QgsProperty.value K p c (N.ofInt dv)).1).2 = true →
                QgsProperty.valueAsInt K N p c dv
                  = (N.qRound (N.toDouble (QgsProperty.value K p c (N.ofInt dv)).1).1, true,
                      (QgsProperty.value K p c (N.ofInt dv)).2.2))
            ∧ ((N.toInt (QgsProperty.value K p c (N.ofInt dv)).1).2 = false →
                (N.toDouble (QgsProperty.value K p c (N.ofInt dv)).1).2 = false →
                QgsProperty.valueAsInt K N p c dv
                  = (dv, false, (QgsProperty.value K p c (N.ofInt dv)).2.2)))
      ∧ ∀ n : Int, K.isValid (N.ofInt n) = true → N.toInt (N.ofInt n) = (n, true) →
          QgsProperty.valueAsInt K N (QgsProperty.fromValue K (N.ofInt n) true) c dv
            = (n, true, QgsProperty.fromValue K (N.ofInt n) true) := by
  refine ⟨?_, ?_, ?_⟩
  · intro h
    unfold QgsProperty.valueAsInt
    rcases hv : QgsProperty.value K p c (N.ofInt dv) with ⟨v, ok, d1⟩
    rw [hv] at h
    rcases h with h | h <;> simp only at h <;> simp [h]
  · intro hok hvalid
    unfold QgsProperty.valueAsInt
    rcases hv : QgsProperty.value K p c (N.ofInt dv) with ⟨v, ok, d1⟩
    rw [hv] at hok hvalid
    simp only at hok hvalid
    rcases hi : N.toInt v with ⟨i, bi⟩
    rcases hd : N.toDouble v with ⟨x, bx⟩
    refine ⟨?_, ?_, ?_⟩
    · intro h
      simp only at h
      simp [hok, hvalid, hi, h]
    · intro h1 h2
      simp only at h1 h2
      simp [hok, hvalid, hi, hd, h1, h2]
    · intro h1 h2
      simp only at h1 h2
      simp [hok, hvalid, hi, hd, h1, h2]
  · intro n hvalid hconv
    have hv : QgsProperty.value K (QgsProperty.fromValue K (N.ofInt n) true) c (N.ofInt dv)
        = (N.ofInt n, true, QgsProperty.fromValue K (N.ofInt n) true) := by
      simp [QgsProperty.value, QgsProperty.propertyValue, QgsProperty.fromValue,
        QgsProperty.setActive, QgsProperty.setStaticValue, QgsProperty.defaultConstructed]
    unfold QgsProperty.valueAsInt
    rw [hv]
    simp [hvalid, hconv]

/-- C19 at the concrete input of the claim: `fromValue(42, true)` evaluates
to `(42, true)` with the default `0`. -/
theorem valueAsInt_result_witness :
    Sample.isValid (SampleNumeric.ofInt 42) = true
      ∧ SampleNumeric.toInt (SampleNumeric.ofInt 42) = (42, true)
      ∧ QgsProperty.valueAsInt Sample SampleNumeric
          (QgsProperty.fromValue Sample (SampleNumeric.ofInt 42) true) nameContext 0
        = (42, true, QgsProperty.fromValue Sample (SampleNumeric.ofInt 42) true) :=
  ⟨rfl, rfl,
    (valueAsInt_result Sample SampleNumeric
      (QgsProperty.fromValue Sample (SampleNumeric.ofInt 42) true) nameContext 0).2.2 42 rfl rfl⟩

/-! ## Property definitions -/

/-- C20: for a definition built from a standard template, `supportsAssistant()`
is true exactly when the kind the template sets is Numeric or the template is
one of Size, StrokeWidth, ColorNoAlpha, ColorWithAlpha, Rotation.  The kind is
Numeric exactly for Integer, IntegerPositive, IntegerPositiveGreaterZero,
Double, DoublePositive, Double0To1, Rotation, Transparency, Size and
StrokeWidth; the two colour templates are String-kind; so the assistant is
supported exactly for these twelve templates and for no other, Boolean, String
and Custom included.  Custom is String-kind with empty help text. -/
theorem supportsAssistant_of_template (name description : String)
    (t : StandardPropertyTemplate) :
    (QgsPropertyDefinition.supportsAssistant
          (QgsPropertyDefinition.fromTemplate name description t) = true ↔
        (QgsPropertyDefinition.fromTemplate name description t).mTypes = DataType.DataTypeNumeric
          ∨ t = StandardPropertyTemplate.Size ∨ t = StandardPropertyTemplate.StrokeWidth
          ∨ t = StandardPropertyTemplate.ColorNoAlpha
          ∨ t = StandardPropertyTemplate.ColorWithAlpha
          ∨ t = StandardPropertyTemplate.Rotation)
      ∧ ((QgsPropertyDefinition.fromTemplate name description t).mTypes = DataType.DataTypeNumeric ↔
          t ∈ [StandardPropertyTemplate.Integer, StandardPropertyTemplate.IntegerPositive,
            StandardPropertyTemplate.IntegerPositiveGreaterZero, StandardPropertyTemplate.Double,
            StandardPropertyTemplate.DoublePositive, StandardPropertyTemplate.Double0To1,
            StandardPropertyTemplate.Rotation, StandardPropertyTemplate.Transparency,
            StandardPropertyTemplate.Size, StandardPropertyTemplate.StrokeWidth])
      ∧ (QgsPropertyDefinition.supportsAssistant
            (QgsPropertyDefinition.fromTemplate name description t) = true ↔
          t ∈ [StandardPropertyTemplate.Integer, StandardPropertyTemplate.IntegerPositive,
            StandardPropertyTemplate.IntegerPositiveGreaterZero, StandardPropertyTemplate.Double,
            StandardPropertyTemplate.DoublePositive, StandardPropertyTemplate.Double0To1,
            StandardPropertyTemplate.Rotation, StandardPropertyTemplate.Transparency,
            StandardPropertyTemplate.Size, StandardPropertyTemplate.StrokeWidth,
            StandardPropertyTemplate.ColorWithAlpha, StandardPropertyTemplate.ColorNoAlpha])
      ∧ (QgsPropertyDefinition.fromTemplate name description
            StandardPropertyTemplate.ColorWithAlpha).mTypes = DataType.DataTypeString
      ∧ (QgsPropertyDefinition.fromTemplate name description
            StandardPropertyTemplate.ColorNoAlpha).mTypes = DataType.DataTypeString
      ∧ (QgsPropertyDefinition.fromTemplate name description
            StandardPropertyTemplate.Custom).mTypes = DataType.DataTypeString
      ∧ (QgsPropertyDefinition.fromTemplate name description
            StandardPropertyTemplate.Custom).mHelpText = "" := by
  refine ⟨?_, ?_, ?_, rfl, rfl, rfl, rfl⟩ <;>
    cases t <;>
      simp [QgsPropertyDefinition.supportsAssistant, QgsPropertyDefinition.fromTemplate,
        QgsPropertyDefinition.templateTypes]


/-! ## Failure and the caller's default -/

/-- C22: whenever `value(c, d)` reports `ok = false` the value it returns is
`d`, and the same holds for `valueAsString`, `valueAsColor`, `valueAsDouble`,
`valueAsInt` and `valueAsBool` with their typed defaults. -/
theorem failure_returns_default (K : Collab) (N : NumericOps K) (T : TypedOps K N)
    (p : QgsPropertyPrivate K) (c : QgsExpressionContext K.QVariant) :
    (∀ dv : K.QVariant, (QgsProperty.value K p c dv).2.1 = false →
        (QgsProperty.value K p c dv).1 = dv)
      ∧ (∀ ds : String, (QgsProperty.valueAsString K p c ds).2.1 = false →
          (QgsProperty.valueAsString K p c ds).1 = ds)
      ∧ (∀ dc : T.QColor, (QgsProperty.valueAsColor K N T p c dc).2.1 = false →
          (QgsProperty.valueAsColor K N T p c dc).1 = dc)
      ∧ (∀ dd : N.Double, (QgsProperty.valueAsDouble K N T p c dd).2.1 = false →
          (QgsProperty.valueAsDouble K N T p c dd).1 = dd)
      ∧ (∀ di : Int, (QgsProperty.valueAsInt K N p c di).2.1 = false →
          (QgsProperty.valueAsInt K N p c di).1 = di)
      ∧ (∀ db : Bool, (QgsProperty.valueAsBool K N T p c db).2.1 = false →
          (QgsProperty.valueAsBool K N T p c db).1 = db) := by
  refine ⟨?_, ?_, ?_, ?_, ?_, ?_⟩
  · intro dv
    unfold QgsProperty.value
    rcases QgsProperty.propertyValue K p c dv with ⟨v, ok, d1⟩
    rcases h : d1.transformer with _ | t <;> cases ok <;> simp [h]
  · intro ds
    unfold QgsProperty.valueAsString
    rcases QgsProperty.value K p c (K.ofString ds) with ⟨v, ok, d1⟩
    simp only []
    split_ifs <;> simp
  · intro dc
    unfold QgsProperty.valueAsColor
    rcases QgsProperty.value K p c (T.ofColor dc) with ⟨v, ok, d1⟩
    simp only []
    split_ifs <;> simp
  · intro dd
    unfold QgsProperty.valueAsDouble
    rcases QgsProperty.value K p c (T.ofDouble dd) with ⟨v, ok, d1⟩
    simp only []
    rcases hx : N.toDouble v with ⟨x, bx⟩
    split_ifs <;> cases bx <;> simp
  · intro di
    unfold QgsProperty.valueAsInt
    rcases QgsProperty.value K p c (N.ofInt di) with ⟨v, ok, d1⟩
    simp only []
    rcases hi : N.toInt v with ⟨i, bi⟩
    rcases hx : N.toDouble v with ⟨x, bx⟩
    split_ifs <;> cases bi <;> cases bx <;> simp
  · intro db
    unfold QgsProperty.valueAsBool
    rcases QgsProperty.value K p c (T.ofBool db) with ⟨v, ok, d1⟩
    simp only []
    split_ifs <;> simp

/-- C22 at concrete inputs: the FieldBound Property `pop` against a record
without that field fails in `value` and in `valueAsInt`, and returns the
default given; the text `Oslo` is no valid colour, and `valueAsColor` returns
the default colour. -/
theorem failure_returns_default_witness :
    QgsProperty.value Sample popField nameContext (SampleVariant.int 7)
        = (SampleVariant.int 7, false, popField)
      ∧ (QgsProperty.valueAsInt Sample SampleNumeric popField nameContext 7).2.1 = false
      ∧ (QgsProperty.valueAsInt Sample SampleNumeric popField nameContext 7).1 = 7
      ∧ (QgsProperty.valueAsColor Sample SampleNumeric SampleTyped
            (QgsProperty.fromField Sample "name" true) nameContext "red").2.1 = false
      ∧ (QgsProperty.valueAsColor Sample SampleNumeric SampleTyped
            (QgsProperty.fromField Sample "name" true) nameContext "red").1 = "red" :=
  ⟨rfl, rfl,
    (failure_returns_default Sample SampleNumeric SampleTyped popField nameContext).2.2.2.2.1
      7 rfl,
    rfl,
    (failure_returns_default Sample SampleNumeric SampleTyped
      (QgsProperty.fromField Sample "name" true) nameContext).2.2.1 "red" rfl⟩


/-! ## Cache invalidation -/

/-- The operations that change the field name or the expression text, other
than `readXml` of a FieldBound element, reset the cache: `setField` and
`convertToTransformer` extracting a field leave the cached index at `-1`;
`setExpressionString`, `readXml` of an ExpressionBound element and
`convertToTransformer` extracting a base expression leave the prepared flag
false. -/
theorem cache_reset_by_other_operations (K : Collab) (d : QgsPropertyPrivate K) :
    (∀ n, (QgsProperty.setField K d n).cachedFieldIdx = -1)
      ∧ (∀ t, (QgsProperty.setExpressionString K d t).expressionPrepared = false)
      ∧ (∀ e, QString.toInt (e.attributeOr "type" "0") = ExpressionBasedProperty →
          (QgsProperty.readXml K d e).2.expressionPrepared = false)
      ∧ (∀ t b f, d.type = ExpressionBasedProperty → d.transformer = none →
          K.fromExpression d.expressionString = some (t, b, f) →
          (f ≠ "" → (QgsProperty.convertToTransformer K d).2.cachedFieldIdx = -1)
            ∧ (f = "" → (QgsProperty.convertToTransformer K d).2.expressionPrepared = false)) := by
  refine ⟨fun _ => rfl, fun _ => rfl, ?_, ?_⟩
  · intro e he
    unfold QgsProperty.readXml
    simp only [he]
    split
    · rfl
    · split
      · rfl
      · split <;> rfl
  · intro t b f htype hnone hdecompose
    constructor
    · intro hf
      simp [QgsProperty.convertToTransformer, htype, hnone, hdecompose, hf,
        QgsProperty.setField]
    · intro hf
      simp [QgsProperty.convertToTransformer, htype, hnone, hdecompose, hf,
        QgsProperty.setExpressionString]

/-- C21, the code at the failing input: the FieldBound Property `pop`, prepared
to the index 0, reads a FieldBound element for the field `name`; afterwards
the field name is `name` and the cached index is still 0, not `-1`, so that
the next evaluation against a record where `name` has index 1 returns the
attribute 0 (the value of `pop`) with `ok = true`. -/
theorem readXml_keeps_stale_field_index :
    (QgsProperty.prepare Sample popField cityContext).2.type = FieldBasedProperty
      ∧ (QgsProperty.prepare Sample popField cityContext).2.fieldName = "pop"
      ∧ (QgsProperty.prepare Sample popField cityContext).2.cachedFieldIdx = 0
      ∧ (QgsProperty.readXml Sample (QgsProperty.prepare Sample popField cityContext).2
          nameFieldElement).2.fieldName = "name"
      ∧ (QgsProperty.readXml Sample (QgsProperty.prepare Sample popField cityContext).2
          nameFieldElement).2.cachedFieldIdx = 0
      ∧ cityContext.feature.fieldNameIndex "name" = 1
      ∧ (QgsProperty.propertyValue Sample
          (QgsProperty.readXml Sample (QgsProperty.prepare Sample popField cityContext).2
            nameFieldElement).2 cityContext (SampleVariant.int 0)).1 = SampleVariant.int 5
      ∧ (QgsProperty.propertyValue Sample
          (QgsProperty.readXml Sample (QgsProperty.prepare Sample popField cityContext).2
            nameFieldElement).2 cityContext (SampleVariant.int 0)).2.1 = true :=
  ⟨rfl, rfl, rfl, rfl, rfl, rfl, rfl, rfl⟩

/-! ## The type tag read from an element -/

/-- C24, the code at the failing input: an element whose `type` attribute is
`7` is read with the type tag 7, which is none of the four variants; the
Property is active, `prepare` takes its fall-through return (false),
`propertyValue` its fall-through return (the undefined value with
`ok = false`, not the default), and `writeXml` writes the tag back with no
payload. -/
theorem readXml_out_of_range_type :
    (QgsProperty.readXml Sample (QgsProperty.defaultConstructed Sample) typeSevenElement).1 = true
      ∧ QgsProperty.propertyType Sample
          (QgsProperty.readXml Sample (QgsProperty.defaultConstructed Sample)
            typeSevenElement).2 = 7
      ∧ (7 : Int) ≠ InvalidProperty ∧ (7 : Int) ≠ StaticProperty
      ∧ (7 : Int) ≠ FieldBasedProperty ∧ (7 : Int) ≠ ExpressionBasedProperty
      ∧ (QgsProperty.readXml Sample (QgsProperty.defaultConstructed Sample)
          typeSevenElement).2.active = true
      ∧ (QgsProperty.prepare Sample
          (QgsProperty.readXml Sample (QgsProperty.defaultConstructed Sample)
            typeSevenElement).2 nameContext).1 = false
      ∧ (QgsProperty.propertyValue Sample
          (QgsProperty.readXml Sample (QgsProperty.defaultConstructed Sample)
            typeSevenElement).2 nameContext (SampleVariant.int 9)).1 = SampleVariant.invalid
      ∧ (QgsProperty.propertyValue Sample
          (QgsProperty.readXml Sample (QgsProperty.defaultConstructed Sample)
            typeSevenElement).2 nameContext (SampleVariant.int 9)).2.1 = false
      ∧ (QgsProperty.writeXml Sample
          (QgsProperty.readXml Sample (QgsProperty.defaultConstructed Sample)
            typeSevenElement).2 (QDomElement.mk "prop" [] QDomNodeList.nil)).2
          = typeSevenElement := by
  refine ⟨rfl, ?_, by decide, by decide, by decide, by decide, ?_, ?_, ?_, ?_, ?_⟩ <;> rfl


/-! ## Copy isolation -/

/-- A step that changes nothing keeps the record at `p`. -/
theorem keeps_refl {K : Collab} (p : Nat) (h : Heap K) (a : Nat) (hp : p < h.next) :
    Shared.Keeps p h a h a :=
  ⟨rfl, hp, fun _ => ⟨‹_›, rfl⟩⟩

/-- Two steps in a row keep the record at `p` when each does. -/
theorem keeps_trans {K : Collab} (p : Nat) (h h1 h2 : Heap K) (a a1 a2 : Nat)
    (h01 : Shared.Keeps p h a h1 a1) (h12 : Shared.Keeps p h1 a1 h2 a2) :
    Shared.Keeps p h a h2 a2 := by
  obtain ⟨d1, _, r1⟩ := h01
  obtain ⟨d2, n2, r2⟩ := h12
  refine ⟨d2.trans d1, n2, ?_⟩
  intro e
  obtain ⟨e1, c1⟩ := r2 e
  obtain ⟨e0, c0⟩ := r1 e1
  exact ⟨e0, c1.trans c0⟩

/-- After a step that keeps the record at `p`, the object is still apart from
it. -/
theorem apart_of_keeps {K : Collab} (p : Nat) (h h2 : Heap K) (a a2 : Nat)
    (hapart : Shared.Apart p h a) (hkeeps : Shared.Keeps p h a h2 a2) :
    Shared.Apart p h2 a2 := by
  obtain ⟨_, hshared⟩ := hapart
  obtain ⟨_, n2, r2⟩ := hkeeps
  refine ⟨n2, ?_⟩
  intro e
  obtain ⟨e0, c0⟩ := r2 e
  rw [c0]
  exact hshared e0

/-- An object apart from the record at `p` holds, after `d.detach()`, an
address other than `p`, and the record at `p` is kept. -/
theorem detach_keeps {K : Collab} (clone : QgsPropertyPrivate K → QgsPropertyPrivate K)
    (p : Nat) (h : Heap K) (a : Nat) (hapart : Shared.Apart p h a) :
    Shared.Keeps p h a (Shared.detach clone h a).1 (Shared.detach clone h a).2
      ∧ (Shared.detach clone h a).2 ≠ p := by
  obtain ⟨hp, hshared⟩ := hapart
  unfold Shared.detach
  by_cases href : h.ref a ≠ 1
  · have hne : p ≠ h.next := Nat.ne_of_lt hp
    rw [if_pos href]
    exact ⟨⟨Function.update_noteq hne _ _, Nat.lt_succ_of_lt hp, fun e => absurd e.symm hne⟩,
      fun e => hne e.symm⟩
  · have hone : h.ref a = 1 := not_not.mp href
    have hap : a ≠ p := by
      intro e
      have h2 := hshared e
      rw [← e, hone] at h2
      exact absurd h2 (by decide)
    rw [if_neg href]
    exact ⟨⟨rfl, hp, fun e => absurd e hap⟩, hap⟩

/-- A write through an address other than `p` keeps the record at `p`. -/
theorem store_keeps {K : Collab} (p : Nat) (h : Heap K) (a : Nat) (d : QgsPropertyPrivate K)
    (hp : p < h.next) (hne : a ≠ p) :
    Shared.Keeps p h a (Shared.store h a d) a := by
  refine ⟨?_, hp, fun e => absurd e hne⟩
  simp [Shared.store, Function.update, Ne.symm hne]

/-- Detaching and then writing keeps the record at `p`, whatever is written. -/
theorem detach_store_keeps {K : Collab} (clone : QgsPropertyPrivate K → QgsPropertyPrivate K)
    (p : Nat) (h : Heap K) (a : Nat) (d : QgsPropertyPrivate K)
    (hapart : Shared.Apart p h a) :
    Shared.Keeps p h a
      (Shared.store (Shared.detach clone h a).1 (Shared.detach clone h a).2 d)
      (Shared.detach clone h a).2 := by
  obtain ⟨hk, hne⟩ := detach_keeps clone p h a hapart
  exact keeps_trans p h _ _ a _ _ hk (store_keeps p _ _ d hk.2.1 hne)

/-- The method `prepare` keeps the record at `p`. -/
theorem prepare_keeps {K : Collab} (clone : QgsPropertyPrivate K → QgsPropertyPrivate K)
    (p : Nat) (h : Heap K) (a : Nat) (c : QgsExpressionContext K.QVariant)
    (hapart : Shared.Apart p h a) :
    Shared.Keeps p h a (Shared.prepare clone h a c).2.1 (Shared.prepare clone h a c).2.2 := by
  unfold Shared.prepare
  split_ifs
  all_goals try exact keeps_refl p h a hapart.1
  · exact detach_store_keeps clone p h a _ hapart
  · simp only []
    split <;> exact detach_store_keeps clone p h a _ hapart

/-- The method `referencedFields` keeps the record at `p`. -/
theorem referencedFields_keeps {K : Collab}
    (clone : QgsPropertyPrivate K → QgsPropertyPrivate K)
    (p : Nat) (h : Heap K) (a : Nat) (c : QgsExpressionContext K.QVariant)
    (hapart : Shared.Apart p h a) :
    Shared.Keeps p h a (Shared.referencedFields clone h a c).2.1
      (Shared.referencedFields clone h a c).2.2 := by
  obtain ⟨hk, _⟩ := detach_keeps clone p h a hapart
  have hapart1 := apart_of_keeps p h _ a _ hapart hk
  have hprep := prepare_keeps clone p _ _ c hapart1
  have hstep : Shared.Keeps p h a
      (if ((Shared.detach clone h a).1.data (Shared.detach clone h a).2).expressionPrepared
        then (true, (Shared.detach clone h a).1, (Shared.detach clone h a).2)
        else Shared.prepare clone (Shared.detach clone h a).1 (Shared.detach clone h a).2 c).2.1
      (if ((Shared.detach clone h a).1.data (Shared.detach clone h a).2).expressionPrepared
        then (true, (Shared.detach clone h a).1, (Shared.detach clone h a).2)
        else Shared.prepare clone (Shared.detach clone h a).1
          (Shared.detach clone h a).2 c).2.2 := by
    split_ifs
    · exact hk
    · exact keeps_trans p h _ _ a _ _ hk hprep
  unfold Shared.referencedFields
  by_cases hactive : (!(h.data a).active) = true
  · rw [if_pos hactive]
    exact keeps_refl p h a hapart.1
  rw [if_neg hactive]
  by_cases hstatic : (h.data a).type = StaticProperty ∨ (h.data a).type = InvalidProperty
  · rw [if_pos hstatic]
    exact keeps_refl p h a hapart.1
  rw [if_neg hstatic]
  by_cases hfield : (h.data a).type = FieldBasedProperty
  · rw [if_pos hfield]
    exact keeps_refl p h a hapart.1
  rw [if_neg hfield]
  by_cases hexpression : (h.data a).type = ExpressionBasedProperty
  · rw [if_pos hexpression]
    simp only []
    split <;> rename_i heq <;> rw [heq] at hstep <;> exact hstep
  · rw [if_neg hexpression]
    exact keeps_refl p h a hapart.1

/-- The method `propertyValue` keeps the record at `p`. -/
theorem propertyValue_keeps {K : Collab}
    (clone : QgsPropertyPrivate K → QgsPropertyPrivate K)
    (p : Nat) (h : Heap K) (a : Nat) (c : QgsExpressionContext K.QVariant) (dv : K.QVariant)
    (hapart : Shared.Apart p h a) :
    Shared.Keeps p h a (Shared.propertyValue clone h a c dv).2.2.1
      (Shared.propertyValue clone h a c dv).2.2.2 := by
  obtain ⟨hk, hne⟩ := detach_keeps clone p h a hapart
  have hapart1 := apart_of_keeps p h _ a _ hapart hk
  have hprep := prepare_keeps clone p _ _ c hapart1
  have hstep : Shared.Keeps p h a
      (if ((Shared.detach clone h a).1.data (Shared.detach clone h a).2).expressionPrepared
        then (true, (Shared.detach clone h a).1, (Shared.detach clone h a).2)
        else Shared.prepare clone (Shared.detach clone h a).1 (Shared.detach clone h a).2 c).2.1
      (if ((Shared.detach clone h a).1.data (Shared.detach clone h a).2).expressionPrepared
        then (true, (Shared.detach clone h a).1, (Shared.detach clone h a).2)
        else Shared.prepare clone (Shared.detach clone h a).1
          (Shared.detach clone h a).2 c).2.2
      ∧ (if ((Shared.detach clone h a).1.data (Shared.detach clone h a).2).expressionPrepared
        then (true, (Shared.detach clone h a).1, (Shared.detach clone h a).2)
        else Shared.prepare clone (Shared.detach clone h a).1
          (Shared.detach clone h a).2 c).2.2 ≠ p := by
    split_ifs
    · exact ⟨hk, hne⟩
    · exact ⟨keeps_trans p h _ _ a _ _ hk hprep, fun e => hne (hprep.2.2 e).1⟩
  unfold Shared.propertyValue
  by_cases hactive : (!(h.data a).active) = true
  · rw [if_pos hactive]
    exact keeps_refl p h a hapart.1
  rw [if_neg hactive]
  by_cases hstatic : (h.data a).type = StaticProperty
  · rw [if_pos hstatic]
    exact keeps_refl p h a hapart.1
  rw [if_neg hstatic]
  by_cases hfield : (h.data a).type = FieldBasedProperty
  · rw [if_pos hfield]
    simp only []
    split_ifs <;> exact keeps_refl p h a hapart.1
  rw [if_neg hfield]
  by_cases hexpression : (h.data a).type = ExpressionBasedProperty
  · rw [if_pos hexpression]
    simp only []
    split
    · rename_i heq
      rw [heq] at hstep
      exact hstep.1
    · rename_i heq
      rw [heq] at hstep
      obtain ⟨hk2, hne2⟩ := hstep
      simp only [] at hk2 hne2
      split_ifs <;> exact keeps_trans p h _ _ a _ _ hk2 (store_keeps p _ _ _ hk2.2.1 hne2)
  · rw [if_neg hexpression]
    split_ifs <;> exact keeps_refl p h a hapart.1

/-- The method `convertToTransformer` keeps the record at `p`. -/
theorem convertToTransformer_keeps {K : Collab}
    (clone : QgsPropertyPrivate K → QgsPropertyPrivate K)
    (p : Nat) (h : Heap K) (a : Nat) (hapart : Shared.Apart p h a) :
    Shared.Keeps p h a (Shared.convertToTransformer clone h a).2.1
      (Shared.convertToTransformer clone h a).2.2 := by
  unfold Shared.convertToTransformer
  split_ifs
  · exact keeps_refl p h a hapart.1
  · exact keeps_refl p h a hapart.1
  · split
    · exact keeps_refl p h a hapart.1
    · rename_i t b f _
      have hk := detach_store_keeps clone p h a
        { (Shared.detach clone h a).1.data (Shared.detach clone h a).2 with
          transformer := some t } hapart
      have hapart1 := apart_of_keeps p h _ a _ hapart hk
      simp only []
      split_ifs
      · exact keeps_trans p h _ _ a _ _ hk (detach_store_keeps clone p _ _ _ hapart1)
      · exact keeps_trans p h _ _ a _ _ hk (detach_store_keeps clone p _ _ _ hapart1)

/-- Every operation keeps the record at `p`. -/
theorem run_keeps {K : Collab} (clone : QgsPropertyPrivate K → QgsPropertyPrivate K)
    (p : Nat) (h : Heap K) (a : Nat) (op : Operation K) (hapart : Shared.Apart p h a) :
    Shared.Keeps p h a (Shared.run clone h a op).1 (Shared.run clone h a op).2 := by
  cases op with
  | setActive active => exact detach_store_keeps clone p h a _ hapart
  | setStaticValue value => exact detach_store_keeps clone p h a _ hapart
  | setField field => exact detach_store_keeps clone p h a _ hapart
  | setExpressionString expression => exact detach_store_keeps clone p h a _ hapart
  | setTransformer transformer => exact detach_store_keeps clone p h a _ hapart
  | readXml propertyElem => exact detach_store_keeps clone p h a _ hapart
  | convertToTransformer => exact convertToTransformer_keeps clone p h a hapart
  | prepare context => exact prepare_keeps clone p h a context hapart
  | referencedFields context => exact referencedFields_keeps clone p h a context hapart
  | propertyValue context defaultValue =>
    exact propertyValue_keeps clone p h a context defaultValue hapart

/-- Every sequence of operations keeps the record at `p`. -/
theorem runAll_keeps {K : Collab} (clone : QgsPropertyPrivate K → QgsPropertyPrivate K)
    (p : Nat) (ops : List (Operation K)) :
    ∀ (h : Heap K) (a : Nat), Shared.Apart p h a →
      Shared.Keeps p h a (Shared.runAll clone h a ops).1 (Shared.runAll clone h a ops).2 := by
  induction ops with
  | nil =>
    intro h a hapart
    exact keeps_refl p h a hapart.1
  | cons op rest ih =>
    intro h a hapart
    have h1 := run_keeps clone p h a op hapart
    have h2 := ih _ _ (apart_of_keeps p h _ a _ hapart h1)
    exact keeps_trans p h _ _ a _ _ h1 h2

/-- C23: let `p` be a Property whose backing record is handed out and held,
and `q` a copy of `p`, made by the copy constructor or by assignment to an
object that held another record.  After any sequence of setters (`setActive`,
`setStaticValue`, `setField`, `setExpressionString`, `setTransformer`,
`readXml`, `convertToTransformer`) and cache-populating calls (`prepare`,
`referencedFields`, `propertyValue`) applied to `q`, the record of `p` shows
the state it had: active flag, type tag, payloads, cached field index,
prepared flag and referenced-column set. -/
theorem copy_isolation (K : Collab) (clone : QgsPropertyPrivate K → QgsPropertyPrivate K)
    (h : Heap K) (p : Nat) (ops : List (Operation K))
    (hhanded : p < h.next) (hheld : 1 ≤ h.ref p) :
    SameState K
        ((Shared.runAll clone (Shared.copy h p).1 (Shared.copy h p).2 ops).1.data p)
        (h.data p)
      ∧ ∀ self, self ≠ p →
          SameState K
            ((Shared.runAll clone (Shared.assign h self p).1 (Shared.assign h self p).2
              ops).1.data p)
            (h.data p) := by
  constructor
  · have hapart : Shared.Apart p (Shared.copy h p).1 (Shared.copy h p).2 := by
      refine ⟨hhanded, fun _ => ?_⟩
      simp only [Shared.copy, Function.update_same]
      exact Nat.succ_le_succ hheld
    have hk := runAll_keeps clone p ops _ _ hapart
    rw [hk.1]
    exact ⟨rfl, rfl, rfl, rfl, rfl, rfl, rfl, rfl⟩
  · intro self hself
    have hapart : Shared.Apart p (Shared.assign h self p).1 (Shared.assign h self p).2 := by
      unfold Shared.assign
      rw [if_neg hself]
      refine ⟨hhanded, fun _ => ?_⟩
      simp only [Function.update_noteq (Ne.symm hself), Function.update_same]
      exact Nat.succ_le_succ hheld
    have hk := runAll_keeps clone p ops _ _ hapart
    rw [hk.1]
    unfold Shared.assign
    rw [if_neg hself]
    exact ⟨rfl, rfl, rfl, rfl, rfl, rfl, rfl, rfl⟩

/-- C23 at a concrete input: a copy of the Property `pop` is prepared against a
context that resolves the field and is then made inactive; the copy has its own
record with the index 0 and the flag false, the original still the unresolved
index and the flag true. -/
theorem copy_isolation_witness :
    popStore.ref 0 = 1
      ∧ (Shared.runAll id (Shared.copy popStore 0).1 (Shared.copy popStore 0).2
          [Operation.prepare popContext, Operation.setActive false]).2 = 1
      ∧ ((Shared.runAll id (Shared.copy popStore 0).1 (Shared.copy popStore 0).2
          [Operation.prepare popContext, Operation.setActive false]).1.data 1).cachedFieldIdx = 0
      ∧ ((Shared.runAll id (Shared.copy popStore 0).1 (Shared.copy popStore 0).2
          [Operation.prepare popContext, Operation.setActive false]).1.data 1).active = false
      ∧ (popStore.data 0).cachedFieldIdx = -1
      ∧ (popStore.data 0).active = true
      ∧ SameState Sample
          ((Shared.runAll id (Shared.copy popStore 0).1 (Shared.copy popStore 0).2
            [Operation.prepare popContext, Operation.setActive false]).1.data 0)
          (popStore.data 0) :=
  ⟨rfl, rfl, rfl, rfl, rfl, rfl,
    (copy_isolation Sample id popStore 0
      [Operation.prepare popContext, Operation.setActive false] (by decide) (by decide)).1⟩

end Qgs
